import Mathlib

/-!
Shallow embedding of the FastAPI e-commerce backend (`main.py`, `database.py`).

The relational store is modelled as lists of rows (`products`, `carts`,
`cartItems`) in the store's natural retrieval order, together with the next
auto-increment primary key for each table.  `result.first()` on a filtered
`select` becomes `List.find?`; relationship loading (`selectinload`) becomes
explicit lookups; `datetime.utcnow()` becomes an explicit `now : Nat`
parameter.  Python `int` is `Int`, `float` prices are `ℚ`, `HTTPException`
is the `ApiError.notFound` constructor, and an uncaught Python runtime error
(e.g. dereferencing a `None` relationship) is `ApiError.crash`.  Every
endpoint returns the post-call store state together with its outcome, since
SQLAlchemy commits performed before an exception persist.
-/

namespace FastapiCart

/-- Row of the `products` table (`database.Product`). -/
structure Product where
  id : Nat
  name : String
  price : ℚ
  description : Option String
  stock : Int
  created_at : Nat
deriving Repr, DecidableEq

/-- Row of the `carts` table (`database.Cart`). -/
structure Cart where
  id : Nat
  session_id : String
  created_at : Nat
  updated_at : Nat
deriving Repr, DecidableEq

/-- Row of the `cart_items` table (`database.CartItem`). -/
structure CartItem where
  id : Nat
  cart_id : Nat
  product_id : Nat
  quantity : Int
  created_at : Nat
  updated_at : Nat
deriving Repr, DecidableEq

/-- The relational store: one list of rows per table, in the store's natural
retrieval order, plus the next auto-increment id of each table. -/
structure DB where
  products : List Product
  carts : List Cart
  cartItems : List CartItem
  nextProductId : Nat
  nextCartId : Nat
  nextItemId : Nat
deriving Repr, DecidableEq

/-- The freshly created store: empty tables, auto-increment counters at 1. -/
def DB.empty : DB := ⟨[], [], [], 1, 1, 1⟩

/-- Failure outcomes of an endpoint: `notFound detail` is
`HTTPException(status_code=404, detail=...)`; `crash` is an uncaught Python
runtime error (HTTP 500). -/
inductive ApiError where
  | notFound (detail : String)
  | crash
deriving Repr, DecidableEq

/-- Request body of `POST /products/` (`ProductCreate`). -/
structure ProductCreate where
  name : String
  price : ℚ
  description : Option String
  stock : Int
deriving Repr, DecidableEq

/-- Request body of `PUT /products/{id}` (`ProductUpdate`): every field
optional, `none` meaning "not supplied" (pydantic `exclude_unset`). The
`description` field can be supplied as null, hence the nested `Option`. -/
structure ProductUpdate where
  name : Option String
  price : Option ℚ
  description : Option (Option String)
  stock : Option Int
deriving Repr, DecidableEq

/-- Request body of `POST /cart/{session_id}/items` (`CartItemCreate`). -/
structure CartItemCreate where
  product_id : Nat
  quantity : Int
deriving Repr, DecidableEq

/-- Request body of `PUT /cart/{session_id}/items/{item_id}`
(`CartItemUpdate`). -/
structure CartItemUpdate where
  quantity : Int
deriving Repr, DecidableEq

/-- `select(Product).filter(Product.id == pid)` followed by `.first()`. -/
def firstProduct (db : DB) (pid : Nat) : Option Product :=
  db.products.find? (fun p => p.id == pid)

/-- `select(Cart).filter(Cart.session_id == s)` followed by `.first()`. -/
def firstCart (db : DB) (s : String) : Option Cart :=
  db.carts.find? (fun c => c.session_id == s)

/-- `select(Cart).filter(Cart.id == cid)` followed by `.first()`. -/
def firstCartById (db : DB) (cid : Nat) : Option Cart :=
  db.carts.find? (fun c => c.id == cid)

/-- `select(CartItem).filter(CartItem.cart_id == cid, CartItem.product_id
== pid)` followed by `.first()`. -/
def firstItem (db : DB) (cid pid : Nat) : Option CartItem :=
  db.cartItems.find? (fun it => it.cart_id == cid && it.product_id == pid)

/-- `select(CartItem).filter(CartItem.id == itemId, CartItem.cart_id ==
cid)` followed by `.first()`. -/
def firstItemById (db : DB) (itemId cid : Nat) : Option CartItem :=
  db.cartItems.find? (fun it => it.id == itemId && it.cart_id == cid)

/-- The `cart.items` relationship: all rows of `cart_items` whose `cart_id`
is `cid`, in retrieval order. -/
def cartItemsOf (db : DB) (cid : Nat) : List CartItem :=
  db.cartItems.filter (fun it => it.cart_id == cid)

/-- The product JSON shape `{id, name, price, description, stock}`
(`ProductDTO`). -/
structure ProductDTO where
  id : Nat
  name : String
  price : ℚ
  description : Option String
  stock : Int
deriving Repr, DecidableEq

/-- Serialize a stored product to its JSON shape. -/
def Product.toDTO (p : Product) : ProductDTO :=
  ⟨p.id, p.name, p.price, p.description, p.stock⟩

/-- One element of the `items` array in the `GET /cart/{session_id}`
response: the raw item fields plus the resolved `item.product`. -/
structure CartItemView where
  id : Nat
  product_id : Nat
  quantity : Int
  product : ProductDTO
deriving Repr, DecidableEq

/-- The `GET /cart/{session_id}` response body. -/
structure CartView where
  id : Nat
  session_id : String
  items : List CartItemView
  total_items : Int
  total_price : ℚ
deriving Repr, DecidableEq

/-- Resolve `item.product` for one cart item; `none` models the relationship
loading `None` because the referenced product row is gone. -/
def resolveItem (db : DB) (it : CartItem) : Option CartItemView :=
  (firstProduct db it.product_id).map
    (fun p => ⟨it.id, it.product_id, it.quantity, p.toDTO⟩)

/-- Build the `get_cart` response for a cart: resolve every item's product
(crashing, as the Python does on `item.product.price` with `item.product =
None`, if one is missing), then compute `total_items = sum(item.quantity
...)` and `total_price = sum(item.quantity * item.product.price ...)`. -/
def renderCart (db : DB) (cart : Cart) : Except ApiError CartView :=
  match (cartItemsOf db cart.id).mapM (resolveItem db) with
  | none => .error .crash
  | some views =>
      .ok { id := cart.id
            session_id := cart.session_id
            items := views
            total_items := (views.map (fun v => v.quantity)).sum
            total_price := (views.map (fun v => (v.quantity : ℚ) * v.product.price)).sum }

/-- `GET /cart/{session_id}` (`main.get_cart`): look up the first cart for
the session; if none, insert a new one (fresh id, both timestamps `now`) and
re-read it by id; then render the cart with computed totals. -/
def get_cart (db : DB) (s : String) (now : Nat) : DB × Except ApiError CartView :=
  match firstCart db s with
  | some cart => (db, renderCart db cart)
  | none =>
      let cart : Cart := { id := db.nextCartId, session_id := s, created_at := now, updated_at := now }
      let db' : DB := { db with carts := db.carts ++ [cart], nextCartId := db.nextCartId + 1 }
      match firstCartById db' cart.id with
      | some cart2 => (db', renderCart db' cart2)
      | none => (db', .error .crash)

/-- `POST /cart/{session_id}/items` (`main.add_to_cart`): get or create the
cart; 404 if the product id does not resolve (the created cart is already
committed); if an item for (cart, product) exists, increment its quantity,
else insert a new item with the supplied quantity. Returns `cart_item_id`. -/
def add_to_cart (db : DB) (s : String) (item_data : CartItemCreate) (now : Nat) :
    DB × Except ApiError Nat :=
  let step1 : DB × Cart :=
    match firstCart db s with
    | some c => (db, c)
    | none =>
        let c : Cart := { id := db.nextCartId, session_id := s, created_at := now, updated_at := now }
        ({ db with carts := db.carts ++ [c], nextCartId := db.nextCartId + 1 }, c)
  let db1 := step1.1
  let cart := step1.2
  match firstProduct db1 item_data.product_id with
  | none => (db1, .error (.notFound "Product not found"))
  | some _ =>
      match firstItem db1 cart.id item_data.product_id with
      | some it =>
          ({ db1 with cartItems := db1.cartItems.map (fun j =>
              if j.id == it.id then
                { j with quantity := j.quantity + item_data.quantity, updated_at := now }
              else j) },
           .ok it.id)
      | none =>
          let newIt : CartItem :=
            { id := db1.nextItemId, cart_id := cart.id, product_id := item_data.product_id,
              quantity := item_data.quantity, created_at := now, updated_at := now }
          ({ db1 with cartItems := db1.cartItems ++ [newIt], nextItemId := db1.nextItemId + 1 },
           .ok newIt.id)

/-- `PUT /cart/{session_id}/items/{item_id}` (`main.update_cart_item`): 404
if no cart for the session or the item is not in that cart; delete the item
if the supplied quantity is ≤ 0, else overwrite its quantity. -/
def update_cart_item (db : DB) (s : String) (itemId : Nat) (item_data : CartItemUpdate)
    (now : Nat) : DB × Except ApiError Unit :=
  match firstCart db s with
  | none => (db, .error (.notFound "Cart not found"))
  | some cart =>
      match firstItemById db itemId cart.id with
      | none => (db, .error (.notFound "Cart item not found"))
      | some it =>
          if item_data.quantity ≤ 0 then
            ({ db with cartItems := db.cartItems.filter (fun j => !(j.id == it.id)) }, .ok ())
          else
            ({ db with
               cartItems := db.cartItems.map (fun j =>
                if j.id == it.id then
                  { j with quantity := item_data.quantity, updated_at := now }
                else j) },
             .ok ())

/-- `DELETE /cart/{session_id}/items/{item_id}` (`main.remove_from_cart`):
404 under the same conditions as `update_cart_item`, else delete the item. -/
def remove_from_cart (db : DB) (s : String) (itemId : Nat) : DB × Except ApiError Unit :=
  match firstCart db s with
  | none => (db, .error (.notFound "Cart not found"))
  | some cart =>
      match firstItemById db itemId cart.id with
      | none => (db, .error (.notFound "Cart item not found"))
      | some it =>
          ({ db with cartItems := db.cartItems.filter (fun j => !(j.id == it.id)) }, .ok ())

/-- `POST /products/` (`main.create_product`): insert a product with a fresh
id and `created_at = now`. -/
def create_product (db : DB) (pc : ProductCreate) (now : Nat) : DB × Product :=
  let p : Product :=
    { id := db.nextProductId, name := pc.name, price := pc.price,
      description := pc.description, stock := pc.stock, created_at := now }
  ({ db with products := db.products ++ [p], nextProductId := db.nextProductId + 1 }, p)

/-- Apply a partial update to a product: only the supplied fields are
overwritten (`model_dump(exclude_unset=True)` + `setattr`). -/
def applyUpdate (p : Product) (u : ProductUpdate) : Product :=
  { p with
    name := u.name.getD p.name
    price := u.price.getD p.price
    description := u.description.getD p.description
    stock := u.stock.getD p.stock }

/-- `PUT /products/{product_id}` (`main.update_product`): 404 if the id does
not resolve; otherwise overwrite exactly the supplied fields of that row and
return the updated product. -/
def update_product (db : DB) (pid : Nat) (u : ProductUpdate) : DB × Except ApiError Product :=
  match firstProduct db pid with
  | none => (db, .error (.notFound "Product not found"))
  | some p =>
      ({ db with products := db.products.map (fun x => if x.id == p.id then applyUpdate x u else x) },
       .ok (applyUpdate p u))

/-- `DELETE /products/{product_id}` (`main.delete_product`): 404 if the id
does not resolve; otherwise delete the row. -/
def delete_product (db : DB) (pid : Nat) : DB × Except ApiError Unit :=
  match firstProduct db pid with
  | none => (db, .error (.notFound "Product not found"))
  | some p =>
      ({ db with products := db.products.filter (fun x => !(x.id == p.id)) }, .ok ())

/-- The id of the cart `add_to_cart db s _ _` operates on: the first cart
for the session, or the freshly inserted one. -/
def targetCartId (db : DB) (s : String) : Nat :=
  match firstCart db s with
  | some c => c.id
  | none => db.nextCartId

/-- All items of cart `cid` referencing product `pid`. -/
def itemsFor (db : DB) (cid pid : Nat) : List CartItem :=
  db.cartItems.filter (fun it => it.cart_id == cid && it.product_id == pid)

/-- Total quantity held by cart `cid` for product `pid`. -/
def sumQty (db : DB) (cid pid : Nat) : Int :=
  ((itemsFor db cid pid).map (fun it => it.quantity)).sum

/-- The reported `total_price` of a `get_cart` call, when it succeeded. -/
def totalPriceOf (r : DB × Except ApiError CartView) : Option ℚ :=
  match r.2 with
  | .ok v => some v.total_price
  | .error _ => none

/-- One transition of the system: any endpoint, with any arguments, whatever
its outcome (the post-call state is the first component each endpoint
returns). -/
inductive Step : DB → DB → Prop where
  | createProduct (db : DB) (pc : ProductCreate) (now : Nat) :
      Step db (create_product db pc now).1
  | updateProduct (db : DB) (pid : Nat) (u : ProductUpdate) :
      Step db (update_product db pid u).1
  | deleteProduct (db : DB) (pid : Nat) :
      Step db (delete_product db pid).1
  | getCart (db : DB) (s : String) (now : Nat) :
      Step db (get_cart db s now).1
  | addToCart (db : DB) (s : String) (it : CartItemCreate) (now : Nat) :
      Step db (add_to_cart db s it now).1
  | updateCartItem (db : DB) (s : String) (itemId : Nat) (u : CartItemUpdate) (now : Nat) :
      Step db (update_cart_item db s itemId u now).1
  | removeFromCart (db : DB) (s : String) (itemId : Nat) :
      Step db (remove_from_cart db s itemId).1

/-- States reachable from the empty store by sequential endpoint calls. -/
inductive Reachable : DB → Prop where
  | init : Reachable DB.empty
  | step {db db' : DB} : Reachable db → Step db db' → Reachable db'

/-- No two distinct rows of `cart_items` share the (cart id, product id)
pair. -/
def distinctPairs (l : List CartItem) : Prop :=
  l.Pairwise (fun a b => a.cart_id ≠ b.cart_id ∨ a.product_id ≠ b.product_id)

instance (l : List CartItem) : Decidable (distinctPairs l) := by
  unfold distinctPairs
  exact List.instDecidablePairwise l

/-- The inductive invariant behind `distinctPairs`: cart ids and items'
cart references stay below the carts auto-increment counter. -/
structure Inv (db : DB) : Prop where
  cartBound : ∀ c ∈ db.carts, c.id < db.nextCartId
  itemCartBound : ∀ it ∈ db.cartItems, it.cart_id < db.nextCartId
  uniq : distinctPairs db.cartItems

/-! ### Helper lemmas -/

theorem mapM_option_forall₂ {α β : Type} {f : α → Option β} :
    ∀ {l : List α} {l' : List β}, l.mapM f = some l' →
      List.Forall₂ (fun a b => f a = some b) l l' := by
  intro l
  induction l with
  | nil =>
      intro l' h
      simp only [List.mapM_nil, Option.pure_def, Option.some.injEq] at h
      subst h
      exact List.Forall₂.nil
  | cons a t ih =>
      intro l' h
      cases hfa : f a with
      | none =>
          rw [List.mapM_cons, hfa] at h
          simp at h
      | some b =>
          cases hmt : t.mapM f with
          | none =>
              rw [List.mapM_cons, hfa, hmt] at h
              simp at h
          | some bs =>
              rw [List.mapM_cons, hfa, hmt] at h
              simp at h
              subst h
              exact List.Forall₂.cons hfa (ih hmt)

theorem mapM_option_isSome {α β : Type} {f : α → Option β} :
    ∀ {l : List α}, (∀ a ∈ l, (f a).isSome) → ∃ l', l.mapM f = some l' := by
  intro l
  induction l with
  | nil => intro _; exact ⟨[], rfl⟩
  | cons a t ih =>
      intro h
      obtain ⟨b, hb⟩ := Option.isSome_iff_exists.mp (h a (List.mem_cons_self a t))
      obtain ⟨bs, hbs⟩ := ih (fun x hx => h x (List.mem_cons_of_mem a hx))
      exact ⟨b :: bs, by rw [List.mapM_cons, hb, hbs]; rfl⟩

theorem forall₂_mem_right {α β : Type} {R : α → β → Prop} :
    ∀ {l : List α} {l' : List β}, List.Forall₂ R l l' → ∀ b ∈ l', ∃ a ∈ l, R a b := by
  intro l l' h
  induction h with
  | nil => intro b hb; cases hb
  | cons hab _ ih =>
      intro b hb
      rcases List.mem_cons.mp hb with h1 | h2
      · subst h1; exact ⟨_, List.mem_cons_self _ _, hab⟩
      · obtain ⟨a, ha, hr⟩ := ih b h2
        exact ⟨a, List.mem_cons_of_mem _ ha, hr⟩

theorem pairwise_filter_singleton {α : Type} {R : α → α → Prop} {p : α → Bool}
    (hR : ∀ a b, p a = true → p b = true → ¬R a b) :
    ∀ {l : List α}, l.Pairwise R → ∀ a ∈ l, p a = true → l.filter p = [a] := by
  intro l
  induction l with
  | nil => intro _ a ha; cases ha
  | cons x t ih =>
      intro hpw a ha hpa
      rcases List.pairwise_cons.mp hpw with ⟨hx, hpt⟩
      rcases List.mem_cons.mp ha with h1 | h2
      · subst h1
        have hft : t.filter p = [] := by
          apply List.filter_eq_nil_iff.mpr
          intro b hb hpb
          exact hR a b hpa hpb (hx b hb)
        simp [List.filter_cons, hpa, hft]
      · have hxa : p x = false := by
          by_contra hc
          have hpx : p x = true := by
            cases hpx' : p x with
            | true => rfl
            | false => exact absurd hpx' hc
          exact hR x a hpx hpa (hx a h2)
        simp [List.filter_cons, hxa, ih hpt a h2 hpa]

/-- The item-row transform applied when an existing item's quantity is
incremented or overwritten never changes `id`, `cart_id` or `product_id`. -/
theorem bump_preserves_keys (itId : Nat) (g : CartItem → CartItem)
    (hg : ∀ j, (g j).id = j.id ∧ (g j).cart_id = j.cart_id ∧ (g j).product_id = j.product_id)
    (j : CartItem) :
    (if j.id == itId then g j else j).id = j.id ∧
    (if j.id == itId then g j else j).cart_id = j.cart_id ∧
    (if j.id == itId then g j else j).product_id = j.product_id := by
  by_cases h : j.id == itId
  · simp [h, hg j]
  · simp [h]

/-! ### Shape lemmas: one per control-flow branch of each endpoint -/

theorem resolveItem_some {db : DB} {it : CartItem} {w : CartItemView}
    (h : resolveItem db it = some w) :
    w.id = it.id ∧ w.product_id = it.product_id ∧ w.quantity = it.quantity ∧
    ∃ p, firstProduct db it.product_id = some p ∧ w.product = p.toDTO := by
  unfold resolveItem at h
  cases hp : firstProduct db it.product_id with
  | none => rw [hp] at h; cases h
  | some p =>
      rw [hp] at h
      simp only [Option.map_some', Option.some.injEq] at h
      subst h
      exact ⟨rfl, rfl, rfl, p, rfl, rfl⟩

theorem renderCart_ok {db : DB} {cart : Cart} {v : CartView}
    (h : renderCart db cart = .ok v) :
    v.id = cart.id ∧ v.session_id = cart.session_id ∧
    List.Forall₂ (fun it w => resolveItem db it = some w) (cartItemsOf db cart.id) v.items ∧
    v.total_items = (v.items.map (fun w => w.quantity)).sum ∧
    v.total_price = (v.items.map (fun w => (w.quantity : ℚ) * w.product.price)).sum := by
  unfold renderCart at h
  cases hm : (cartItemsOf db cart.id).mapM (resolveItem db) with
  | none => rw [hm] at h; cases h
  | some views =>
      rw [hm] at h
      simp only [Except.ok.injEq] at h
      subst h
      exact ⟨rfl, rfl, mapM_option_forall₂ hm, rfl, rfl⟩

theorem renderCart_total (db : DB) (cart : Cart)
    (h : ∀ it ∈ cartItemsOf db cart.id, (firstProduct db it.product_id).isSome) :
    ∃ v, renderCart db cart = .ok v := by
  have : ∀ it ∈ cartItemsOf db cart.id, (resolveItem db it).isSome := by
    intro it hit
    have hs := h it hit
    unfold resolveItem
    cases hp : firstProduct db it.product_id with
    | none => rw [hp] at hs; simp at hs
    | some p => simp
  obtain ⟨views, hv⟩ := mapM_option_isSome this
  exact ⟨_, by unfold renderCart; rw [hv]⟩

theorem renderCart_nil {db : DB} {cart : Cart} (h : cartItemsOf db cart.id = []) :
    renderCart db cart = .ok ⟨cart.id, cart.session_id, [], 0, 0⟩ := by
  unfold renderCart
  rw [h]
  rfl

theorem get_cart_found {db : DB} {s : String} {c : Cart} (now : Nat)
    (h : firstCart db s = some c) :
    get_cart db s now = (db, renderCart db c) := by
  unfold get_cart
  rw [h]

theorem get_cart_create {db : DB} {s : String} (now : Nat)
    (h : firstCart db s = none)
    (hb : ∀ c ∈ db.carts, c.id < db.nextCartId) :
    get_cart db s now =
      (let newCart : Cart := ⟨db.nextCartId, s, now, now⟩
       let db' : DB := { db with
                         carts := db.carts ++ [newCart]
                         nextCartId := db.nextCartId + 1 }
       (db', renderCart db' newCart)) := by
  unfold get_cart
  rw [h]
  have hfind : firstCartById
      { db with
        carts := db.carts ++ [⟨db.nextCartId, s, now, now⟩]
        nextCartId := db.nextCartId + 1 } db.nextCartId =
      some ⟨db.nextCartId, s, now, now⟩ := by
    unfold firstCartById
    rw [List.find?_append]
    have h1 : db.carts.find? (fun c => c.id == db.nextCartId) = none := by
      apply List.find?_eq_none.mpr
      intro c hc
      simp only [beq_iff_eq]
      exact Nat.ne_of_lt (hb c hc)
    rw [h1]
    simp
  simp only [hfind]

theorem get_cart_create_state {db : DB} {s : String} (now : Nat)
    (h : firstCart db s = none) :
    (get_cart db s now).1 =
      { db with
        carts := db.carts ++ [⟨db.nextCartId, s, now, now⟩]
        nextCartId := db.nextCartId + 1 } := by
  unfold get_cart
  rw [h]
  cases hf : firstCartById
      { db with
        carts := db.carts ++ [⟨db.nextCartId, s, now, now⟩]
        nextCartId := db.nextCartId + 1 } db.nextCartId <;> simp [hf]

theorem add_found_prod_item {db : DB} {s : String} {c : Cart} {p : Product} {it0 : CartItem}
    {d : CartItemCreate} (now : Nat)
    (hc : firstCart db s = some c) (hp : firstProduct db d.product_id = some p)
    (hi : firstItem db c.id d.product_id = some it0) :
    add_to_cart db s d now =
      ({ db with
         cartItems := db.cartItems.map (fun j =>
          if j.id == it0.id then
            { j with quantity := j.quantity + d.quantity, updated_at := now }
          else j) },
       .ok it0.id) := by
  unfold add_to_cart
  simp only [hc, hp, hi]

theorem add_found_prod_noItem {db : DB} {s : String} {c : Cart} {p : Product}
    {d : CartItemCreate} (now : Nat)
    (hc : firstCart db s = some c) (hp : firstProduct db d.product_id = some p)
    (hi : firstItem db c.id d.product_id = none) :
    add_to_cart db s d now =
      ({ db with
         cartItems := db.cartItems ++
          [⟨db.nextItemId, c.id, d.product_id, d.quantity, now, now⟩]
         nextItemId := db.nextItemId + 1 },
       .ok db.nextItemId) := by
  unfold add_to_cart
  simp only [hc, hp, hi]

theorem add_found_noProd {db : DB} {s : String} {c : Cart} {d : CartItemCreate} (now : Nat)
    (hc : firstCart db s = some c) (hp : firstProduct db d.product_id = none) :
    add_to_cart db s d now = (db, .error (.notFound "Product not found")) := by
  unfold add_to_cart
  simp only [hc, hp]

theorem add_noCart_noProd {db : DB} {s : String} {d : CartItemCreate} (now : Nat)
    (hc : firstCart db s = none) (hp : firstProduct db d.product_id = none) :
    add_to_cart db s d now =
      ({ db with
         carts := db.carts ++ [⟨db.nextCartId, s, now, now⟩]
         nextCartId := db.nextCartId + 1 },
       .error (.notFound "Product not found")) := by
  unfold add_to_cart
  have hp' : firstProduct
      { db with
        carts := db.carts ++ [⟨db.nextCartId, s, now, now⟩]
        nextCartId := db.nextCartId + 1 } d.product_id = none := hp
  simp only [hc, hp']

theorem add_noCart_prod_noItem {db : DB} {s : String} {p : Product} {d : CartItemCreate}
    (now : Nat)
    (hc : firstCart db s = none) (hp : firstProduct db d.product_id = some p)
    (hi : firstItem db db.nextCartId d.product_id = none) :
    add_to_cart db s d now =
      ({ db with
         carts := db.carts ++ [⟨db.nextCartId, s, now, now⟩]
         nextCartId := db.nextCartId + 1
         cartItems := db.cartItems ++
           [⟨db.nextItemId, db.nextCartId, d.product_id, d.quantity, now, now⟩]
         nextItemId := db.nextItemId + 1 },
       .ok db.nextItemId) := by
  unfold add_to_cart
  have hp' : firstProduct
      { db with
        carts := db.carts ++ [⟨db.nextCartId, s, now, now⟩]
        nextCartId := db.nextCartId + 1 } d.product_id = some p := hp
  have hi' : firstItem
      { db with
        carts := db.carts ++ [⟨db.nextCartId, s, now, now⟩]
        nextCartId := db.nextCartId + 1 } db.nextCartId d.product_id = none := hi
  simp only [hc, hp', hi']

theorem add_noCart_prod_item {db : DB} {s : String} {p : Product} {it0 : CartItem}
    {d : CartItemCreate} (now : Nat)
    (hc : firstCart db s = none) (hp : firstProduct db d.product_id = some p)
    (hi : firstItem db db.nextCartId d.product_id = some it0) :
    add_to_cart db s d now =
      ({ db with
         carts := db.carts ++ [⟨db.nextCartId, s, now, now⟩]
         nextCartId := db.nextCartId + 1
         cartItems := db.cartItems.map (fun j =>
           if j.id == it0.id then
             { j with quantity := j.quantity + d.quantity, updated_at := now }
           else j) },
       .ok it0.id) := by
  unfold add_to_cart
  have hp' : firstProduct
      { db with
        carts := db.carts ++ [⟨db.nextCartId, s, now, now⟩]
        nextCartId := db.nextCartId + 1 } d.product_id = some p := hp
  have hi' : firstItem
      { db with
        carts := db.carts ++ [⟨db.nextCartId, s, now, now⟩]
        nextCartId := db.nextCartId + 1 } db.nextCartId d.product_id = some it0 := hi
  simp only [hc, hp', hi']

theorem update_item_noCart {db : DB} {s : String} (itemId : Nat) (u : CartItemUpdate)
    (now : Nat) (h : firstCart db s = none) :
    update_cart_item db s itemId u now = (db, .error (.notFound "Cart not found")) := by
  unfold update_cart_item
  rw [h]

theorem update_item_noItem {db : DB} {s : String} {c : Cart} (itemId : Nat)
    (u : CartItemUpdate) (now : Nat)
    (hc : firstCart db s = some c) (hi : firstItemById db itemId c.id = none) :
    update_cart_item db s itemId u now = (db, .error (.notFound "Cart item not found")) := by
  unfold update_cart_item
  simp only [hc, hi]

theorem update_item_delete {db : DB} {s : String} {c : Cart} {it : CartItem} {itemId : Nat}
    {u : CartItemUpdate} (now : Nat)
    (hc : firstCart db s = some c) (hi : firstItemById db itemId c.id = some it)
    (hq : u.quantity ≤ 0) :
    update_cart_item db s itemId u now =
      ({ db with cartItems := db.cartItems.filter (fun j => !(j.id == it.id)) }, .ok ()) := by
  unfold update_cart_item
  simp only [hc, hi]
  simp [hq]

theorem update_item_set {db : DB} {s : String} {c : Cart} {it : CartItem} {itemId : Nat}
    {u : CartItemUpdate} (now : Nat)
    (hc : firstCart db s = some c) (hi : firstItemById db itemId c.id = some it)
    (hq : ¬u.quantity ≤ 0) :
    update_cart_item db s itemId u now =
      ({ db with
         cartItems := db.cartItems.map (fun j =>
          if j.id == it.id then { j with quantity := u.quantity, updated_at := now }
          else j) },
       .ok ()) := by
  unfold update_cart_item
  simp only [hc, hi]
  simp [hq]

theorem remove_noCart {db : DB} {s : String} (itemId : Nat) (h : firstCart db s = none) :
    remove_from_cart db s itemId = (db, .error (.notFound "Cart not found")) := by
  unfold remove_from_cart
  rw [h]

theorem remove_noItem {db : DB} {s : String} {c : Cart} (itemId : Nat)
    (hc : firstCart db s = some c) (hi : firstItemById db itemId c.id = none) :
    remove_from_cart db s itemId = (db, .error (.notFound "Cart item not found")) := by
  unfold remove_from_cart
  simp only [hc, hi]

theorem remove_item {db : DB} {s : String} {c : Cart} {it : CartItem} {itemId : Nat}
    (hc : firstCart db s = some c) (hi : firstItemById db itemId c.id = some it) :
    remove_from_cart db s itemId =
      ({ db with cartItems := db.cartItems.filter (fun j => !(j.id == it.id)) }, .ok ()) := by
  unfold remove_from_cart
  simp only [hc, hi]

theorem update_product_none {db : DB} {pid : Nat} (u : ProductUpdate)
    (h : firstProduct db pid = none) :
    update_product db pid u = (db, .error (.notFound "Product not found")) := by
  unfold update_product
  rw [h]

theorem update_product_some {db : DB} {pid : Nat} {p : Product} (u : ProductUpdate)
    (h : firstProduct db pid = some p) :
    update_product db pid u =
      ({ db with products := db.products.map (fun x => if x.id == p.id then applyUpdate x u else x) },
       .ok (applyUpdate p u)) := by
  unfold update_product
  rw [h]

/-! ### Lookup characterizations -/

theorem firstCart_mem {db : DB} {s : String} {c : Cart} (h : firstCart db s = some c) :
    c ∈ db.carts ∧ c.session_id = s := by
  unfold firstCart at h
  refine ⟨List.mem_of_find?_eq_some h, ?_⟩
  have := List.find?_some h
  simpa using this

theorem firstProduct_mem {db : DB} {pid : Nat} {p : Product}
    (h : firstProduct db pid = some p) : p ∈ db.products ∧ p.id = pid := by
  unfold firstProduct at h
  refine ⟨List.mem_of_find?_eq_some h, ?_⟩
  have := List.find?_some h
  simpa using this

theorem firstItem_mem {db : DB} {cid pid : Nat} {it : CartItem}
    (h : firstItem db cid pid = some it) :
    it ∈ db.cartItems ∧ it.cart_id = cid ∧ it.product_id = pid := by
  unfold firstItem at h
  refine ⟨List.mem_of_find?_eq_some h, ?_⟩
  have := List.find?_some h
  simp only [Bool.and_eq_true, beq_iff_eq] at this
  exact this

theorem firstItemById_mem {db : DB} {itemId cid : Nat} {it : CartItem}
    (h : firstItemById db itemId cid = some it) :
    it ∈ db.cartItems ∧ it.id = itemId ∧ it.cart_id = cid := by
  unfold firstItemById at h
  refine ⟨List.mem_of_find?_eq_some h, ?_⟩
  have := List.find?_some h
  simp only [Bool.and_eq_true, beq_iff_eq] at this
  exact this

theorem firstItem_none {db : DB} {cid pid : Nat} (h : firstItem db cid pid = none) :
    ∀ j ∈ db.cartItems, ¬(j.cart_id = cid ∧ j.product_id = pid) := by
  unfold firstItem at h
  intro j hj ⟨h1, h2⟩
  have := List.find?_eq_none.mp h j hj
  simp [h1, h2] at this

theorem firstCart_none {db : DB} {s : String} (h : firstCart db s = none) :
    ∀ c ∈ db.carts, c.session_id ≠ s := by
  unfold firstCart at h
  intro c hc hs
  have := List.find?_eq_none.mp h c hc
  simp [hs] at this

/-! ### Invariant preservation -/

theorem inv_empty : Inv DB.empty := by
  refine ⟨?_, ?_, ?_⟩ <;> simp [DB.empty, distinctPairs]

/-- Extending the carts table with a fresh-id cart preserves the invariant. -/
theorem inv_extend_cart {db : DB} (h : Inv db) (s : String) (now : Nat) :
    Inv { db with
          carts := db.carts ++ [⟨db.nextCartId, s, now, now⟩]
          nextCartId := db.nextCartId + 1 } := by
  refine ⟨?_, ?_, h.uniq⟩
  · intro c hc
    rcases List.mem_append.mp hc with h1 | h2
    · exact Nat.lt_trans (h.cartBound c h1) (Nat.lt_succ_self _)
    · simp only [List.mem_singleton] at h2
      subst h2
      exact Nat.lt_succ_self _
  · intro it hit
    exact Nat.lt_trans (h.itemCartBound it hit) (Nat.lt_succ_self _)

/-- Deleting item rows preserves the invariant. -/
theorem inv_filter_items {db : DB} (h : Inv db) (p : CartItem → Bool) :
    Inv { db with cartItems := db.cartItems.filter p } := by
  refine ⟨h.cartBound, ?_, ?_⟩
  · intro it hit
    exact h.itemCartBound it (List.mem_filter.mp hit).1
  · exact List.Pairwise.sublist (List.filter_sublist _) h.uniq

/-- Rewriting one item row in place, without touching its id, cart or
product reference, preserves the invariant. -/
theorem inv_map_bump {db : DB} (h : Inv db) (itId : Nat) (g : CartItem → CartItem)
    (hg : ∀ j, (g j).id = j.id ∧ (g j).cart_id = j.cart_id ∧ (g j).product_id = j.product_id) :
    Inv { db with cartItems := db.cartItems.map (fun j => if j.id == itId then g j else j) } := by
  refine ⟨h.cartBound, ?_, ?_⟩
  · intro it hit
    rcases List.mem_map.mp hit with ⟨j, hj, rfl⟩
    rw [(bump_preserves_keys itId g hg j).2.1]
    exact h.itemCartBound j hj
  · apply List.Pairwise.map _ ?_ h.uniq
    intro a b hr
    rcases bump_preserves_keys itId g hg a with ⟨_, ha2, ha3⟩
    rcases bump_preserves_keys itId g hg b with ⟨_, hb2, hb3⟩
    rw [ha2, ha3, hb2, hb3]
    exact hr

/-- Appending a new item for a (cart, product) pair not yet present
preserves the invariant. -/
theorem inv_append_item {db : DB} (h : Inv db) {cid pid : Nat} (q : Int) (now : Nat)
    (hcid : cid < db.nextCartId) (hnone : firstItem db cid pid = none) :
    Inv { db with
          cartItems := db.cartItems ++ [⟨db.nextItemId, cid, pid, q, now, now⟩]
          nextItemId := db.nextItemId + 1 } := by
  refine ⟨h.cartBound, ?_, ?_⟩
  · intro it hit
    rcases List.mem_append.mp hit with h1 | h2
    · exact h.itemCartBound it h1
    · simp only [List.mem_singleton] at h2
      subst h2
      exact hcid
  · unfold distinctPairs
    rw [List.pairwise_append]
    refine ⟨h.uniq, List.pairwise_singleton _ _, ?_⟩
    intro a ha b hb
    simp only [List.mem_singleton] at hb
    subst hb
    have := firstItem_none hnone a ha
    by_cases h1 : a.cart_id = cid
    · right
      intro h2
      exact this ⟨h1, h2⟩
    · left
      exact h1

theorem inv_get_cart (db : DB) (s : String) (now : Nat) (h : Inv db) :
    Inv (get_cart db s now).1 := by
  cases hc : firstCart db s with
  | some c =>
      rw [get_cart_found now hc]
      exact h
  | none =>
      rw [get_cart_create_state now hc]
      exact inv_extend_cart h s now

theorem inv_add_to_cart (db : DB) (s : String) (d : CartItemCreate) (now : Nat)
    (h : Inv db) : Inv (add_to_cart db s d now).1 := by
  cases hc : firstCart db s with
  | some c =>
      cases hp : firstProduct db d.product_id with
      | none =>
          rw [add_found_noProd now hc hp]
          exact h
      | some p =>
          cases hi : firstItem db c.id d.product_id with
          | some it0 =>
              rw [add_found_prod_item now hc hp hi]
              exact inv_map_bump h it0.id _ (fun j => ⟨rfl, rfl, rfl⟩)
          | none =>
              rw [add_found_prod_noItem now hc hp hi]
              exact inv_append_item h d.quantity now
                (h.cartBound c (firstCart_mem hc).1) hi
  | none =>
      cases hp : firstProduct db d.product_id with
      | none =>
          rw [add_noCart_noProd now hc hp]
          exact inv_extend_cart h s now
      | some p =>
          cases hi : firstItem db db.nextCartId d.product_id with
          | some it0 =>
              rw [add_noCart_prod_item now hc hp hi]
              have h1 := inv_extend_cart h s now
              exact inv_map_bump h1 it0.id _ (fun j => ⟨rfl, rfl, rfl⟩)
          | none =>
              rw [add_noCart_prod_noItem now hc hp hi]
              have h1 := inv_extend_cart h s now
              exact inv_append_item h1 d.quantity now (Nat.lt_succ_self _) hi

theorem inv_update_cart_item (db : DB) (s : String) (itemId : Nat) (u : CartItemUpdate)
    (now : Nat) (h : Inv db) : Inv (update_cart_item db s itemId u now).1 := by
  cases hc : firstCart db s with
  | none =>
      rw [update_item_noCart itemId u now hc]
      exact h
  | some c =>
      cases hi : firstItemById db itemId c.id with
      | none =>
          rw [update_item_noItem itemId u now hc hi]
          exact h
      | some it =>
          by_cases hq : u.quantity ≤ 0
          · rw [update_item_delete now hc hi hq]
            exact inv_filter_items h _
          · rw [update_item_set now hc hi hq]
            exact inv_map_bump h it.id _ (fun j => ⟨rfl, rfl, rfl⟩)

theorem inv_remove_from_cart (db : DB) (s : String) (itemId : Nat) (h : Inv db) :
    Inv (remove_from_cart db s itemId).1 := by
  cases hc : firstCart db s with
  | none =>
      rw [remove_noCart itemId hc]
      exact h
  | some c =>
      cases hi : firstItemById db itemId c.id with
      | none =>
          rw [remove_noItem itemId hc hi]
          exact h
      | some it =>
          rw [remove_item hc hi]
          exact inv_filter_items h _

theorem inv_create_product (db : DB) (pc : ProductCreate) (now : Nat) (h : Inv db) :
    Inv (create_product db pc now).1 :=
  ⟨h.cartBound, h.itemCartBound, h.uniq⟩

theorem inv_update_product (db : DB) (pid : Nat) (u : ProductUpdate) (h : Inv db) :
    Inv (update_product db pid u).1 := by
  cases hp : firstProduct db pid with
  | none =>
      rw [update_product_none u hp]
      exact h
  | some p =>
      rw [update_product_some u hp]
      exact ⟨h.cartBound, h.itemCartBound, h.uniq⟩

theorem inv_delete_product (db : DB) (pid : Nat) (h : Inv db) :
    Inv (delete_product db pid).1 := by
  unfold delete_product
  cases hp : firstProduct db pid with
  | none => exact h
  | some p => exact ⟨h.cartBound, h.itemCartBound, h.uniq⟩

theorem step_inv {db db' : DB} (h : Inv db) (hs : Step db db') : Inv db' := by
  cases hs with
  | createProduct pc now => exact inv_create_product db pc now h
  | updateProduct pid u => exact inv_update_product db pid u h
  | deleteProduct pid => exact inv_delete_product db pid h
  | getCart s now => exact inv_get_cart db s now h
  | addToCart s it now => exact inv_add_to_cart db s it now h
  | updateCartItem s itemId u now => exact inv_update_cart_item db s itemId u now h
  | removeFromCart s itemId => exact inv_remove_from_cart db s itemId h

theorem reachable_inv {db : DB} (h : Reachable db) : Inv db := by
  induction h with
  | init => exact inv_empty
  | step _ hs ih => exact step_inv ih hs

/-! ### Auxiliary lemmas for the claim theorems -/

theorem firstCart_append_self {db : DB} {s : String} (hc : firstCart db s = none) (now : Nat) :
    firstCart { db with
                carts := db.carts ++ [⟨db.nextCartId, s, now, now⟩]
                nextCartId := db.nextCartId + 1 } s =
      some ⟨db.nextCartId, s, now, now⟩ := by
  unfold firstCart at hc ⊢
  rw [List.find?_append, hc]
  simp [List.find?]

theorem cartItemsOf_none {db : DB} {cid : Nat}
    (h : ∀ it ∈ db.cartItems, it.cart_id ≠ cid) : cartItemsOf db cid = [] := by
  unfold cartItemsOf
  apply List.filter_eq_nil_iff.mpr
  intro it hit
  simp [h it hit]

theorem update_product_frame (db : DB) (pid : Nat) (u : ProductUpdate) :
    (update_product db pid u).1.carts = db.carts ∧
    (update_product db pid u).1.cartItems = db.cartItems := by
  cases hp : firstProduct db pid with
  | none => rw [update_product_none u hp]; exact ⟨rfl, rfl⟩
  | some p => rw [update_product_some u hp]; exact ⟨rfl, rfl⟩

/-! ### Claims -/

/-- C4: in every state reachable by sequential execution of the endpoint
operations (product create/update/delete, getOrCreateCart, addItem,
setItemQuantity, removeItem), the item table holds at most one row per
(cart identifier, product identifier) pair. -/
theorem C4_at_most_one_item_per_pair {db : DB} (h : Reachable db) :
    distinctPairs db.cartItems :=
  (reachable_inv h).uniq

/-- C4 witness: the uniqueness invariant holds in the concrete state reached
by creating a product and adding it twice to the same session cart. -/
theorem C4_witness :
    distinctPairs
      (add_to_cart
        (add_to_cart (create_product DB.empty ⟨"a", 5, none, 0⟩ 0).1 "s" ⟨1, 2⟩ 1).1
        "s" ⟨1, 3⟩ 2).1.cartItems :=
  C4_at_most_one_item_per_pair
    (Reachable.step
      (Reachable.step
        (Reachable.step Reachable.init (Step.createProduct DB.empty ⟨"a", 5, none, 0⟩ 0))
        (Step.addToCart _ "s" ⟨1, 2⟩ 1))
      (Step.addToCart _ "s" ⟨1, 3⟩ 2))

/-- C5: addItem with a product id that does not resolve fails with 404
"Product not found" and persists no cart item: the item table is unchanged. -/
theorem C5_add_unknown_product {db : DB} {s : String} {d : CartItemCreate} {now : Nat}
    (hp : firstProduct db d.product_id = none) :
    (add_to_cart db s d now).2 = .error (.notFound "Product not found") ∧
    (add_to_cart db s d now).1.cartItems = db.cartItems := by
  cases hc : firstCart db s with
  | some c => rw [add_found_noProd now hc hp]; exact ⟨rfl, rfl⟩
  | none => rw [add_noCart_noProd now hc hp]; exact ⟨rfl, rfl⟩

/-- C5 witness: on the empty store, adding unknown product 1 fails with 404
and leaves the item table empty. -/
theorem C5_witness :
    (add_to_cart DB.empty "s" ⟨1, 2⟩ 0).2 = .error (.notFound "Product not found") ∧
    (add_to_cart DB.empty "s" ⟨1, 2⟩ 0).1.cartItems = DB.empty.cartItems :=
  C5_add_unknown_product rfl

/-- C9: addItem is not atomic: with no cart for the session and an unknown
product id, the call fails with 404 but the cart created in its first step
persists, and a subsequent getOrCreateCart finds that cart instead of
creating another. -/
theorem C9_partial_write_persists {db : DB} {s : String} {d : CartItemCreate}
    {now now2 : Nat}
    (hc : firstCart db s = none) (hp : firstProduct db d.product_id = none)
    (hib : ∀ it ∈ db.cartItems, it.cart_id < db.nextCartId) :
    (add_to_cart db s d now).2 = .error (.notFound "Product not found") ∧
    (add_to_cart db s d now).1.carts = db.carts ++ [⟨db.nextCartId, s, now, now⟩] ∧
    (add_to_cart db s d now).1.cartItems = db.cartItems ∧
    firstCart (add_to_cart db s d now).1 s = some ⟨db.nextCartId, s, now, now⟩ ∧
    (get_cart (add_to_cart db s d now).1 s now2).1 = (add_to_cart db s d now).1 ∧
    (get_cart (add_to_cart db s d now).1 s now2).2 =
      .ok ⟨db.nextCartId, s, [], 0, 0⟩ := by
  rw [add_noCart_noProd now hc hp]
  have hfc := firstCart_append_self hc now
  refine ⟨rfl, rfl, rfl, hfc, ?_, ?_⟩
  · rw [get_cart_found now2 hfc]
  · rw [get_cart_found now2 hfc]
    have hnil : cartItemsOf
        { db with
          carts := db.carts ++ [⟨db.nextCartId, s, now, now⟩]
          nextCartId := db.nextCartId + 1 } db.nextCartId = [] := by
      apply cartItemsOf_none
      intro it hit
      exact Nat.ne_of_lt (hib it hit)
    exact renderCart_nil hnil

/-- C9 witness: on the empty store, the failed add leaves a cart behind which
the next getOrCreateCart finds. -/
theorem C9_witness :
    (add_to_cart DB.empty "s" ⟨1, 2⟩ 0).2 = .error (.notFound "Product not found") ∧
    (add_to_cart DB.empty "s" ⟨1, 2⟩ 0).1.carts = DB.empty.carts ++ [⟨1, "s", 0, 0⟩] ∧
    (add_to_cart DB.empty "s" ⟨1, 2⟩ 0).1.cartItems = DB.empty.cartItems ∧
    firstCart (add_to_cart DB.empty "s" ⟨1, 2⟩ 0).1 "s" = some ⟨1, "s", 0, 0⟩ ∧
    (get_cart (add_to_cart DB.empty "s" ⟨1, 2⟩ 0).1 "s" 1).1 =
      (add_to_cart DB.empty "s" ⟨1, 2⟩ 0).1 ∧
    (get_cart (add_to_cart DB.empty "s" ⟨1, 2⟩ 0).1 "s" 1).2 = .ok ⟨1, "s", [], 0, 0⟩ :=
  C9_partial_write_persists rfl rfl (by simp [DB.empty])

/-- C8: PUT /products/{id} with a partial payload overwrites exactly the
supplied fields, leaves every unsupplied field (including id and creation
timestamp) unchanged and returns the updated product; an absent id yields
404 with the store unchanged. -/
theorem C8_partial_update (db : DB) (pid : Nat) (u : ProductUpdate) :
    (∀ p, firstProduct db pid = some p →
      ∃ pNew, (update_product db pid u).2 = .ok pNew ∧
        pNew.id = p.id ∧ pNew.created_at = p.created_at ∧
        (u.name = none → pNew.name = p.name) ∧
        (∀ v, u.name = some v → pNew.name = v) ∧
        (u.price = none → pNew.price = p.price) ∧
        (∀ v, u.price = some v → pNew.price = v) ∧
        (u.description = none → pNew.description = p.description) ∧
        (∀ v, u.description = some v → pNew.description = v) ∧
        (u.stock = none → pNew.stock = p.stock) ∧
        (∀ v, u.stock = some v → pNew.stock = v) ∧
        pNew ∈ (update_product db pid u).1.products ∧
        (∀ x ∈ db.products, x.id ≠ pid → x ∈ (update_product db pid u).1.products)) ∧
    (firstProduct db pid = none →
      update_product db pid u = (db, .error (.notFound "Product not found"))) := by
  constructor
  · intro p hp
    rw [update_product_some u hp]
    refine ⟨applyUpdate p u, rfl, rfl, rfl, ?_, ?_, ?_, ?_, ?_, ?_, ?_, ?_, ?_, ?_⟩
    · intro h; simp [applyUpdate, h]
    · intro v h; simp [applyUpdate, h]
    · intro h; simp [applyUpdate, h]
    · intro v h; simp [applyUpdate, h]
    · intro h; simp [applyUpdate, h]
    · intro v h; simp [applyUpdate, h]
    · intro h; simp [applyUpdate, h]
    · intro v h; simp [applyUpdate, h]
    · have hmem := (firstProduct_mem hp).1
      have : applyUpdate p u =
          (fun x => if x.id == p.id then applyUpdate x u else x) p := by simp
      rw [this]
      exact List.mem_map_of_mem _ hmem
    · intro x hx hne
      have hxid : (x.id == p.id) = false := by
        simp only [beq_eq_false_iff_ne, ne_eq]
        rw [(firstProduct_mem hp).2]
        exact hne
      have hmm := List.mem_map_of_mem
        (fun y => if y.id == p.id then applyUpdate y u else y) hx
      simpa [hxid] using hmm
  · intro hp
    exact update_product_none u hp

/-- C8 witness: updating only the price of a stored product keeps name,
description, stock, id and creation timestamp, and 404s on an absent id. -/
theorem C8_witness :
    (∀ p, firstProduct ⟨[⟨1, "a", 5, some "d", 7, 3⟩], [], [], 2, 1, 1⟩ 1 = some p →
      ∃ pNew, (update_product ⟨[⟨1, "a", 5, some "d", 7, 3⟩], [], [], 2, 1, 1⟩ 1
          ⟨none, some 9, none, none⟩).2 = .ok pNew ∧
        pNew.id = p.id ∧ pNew.created_at = p.created_at ∧
        ((⟨none, some 9, none, none⟩ : ProductUpdate).name = none → pNew.name = p.name) ∧
        (∀ v, (⟨none, some 9, none, none⟩ : ProductUpdate).name = some v → pNew.name = v) ∧
        ((⟨none, some 9, none, none⟩ : ProductUpdate).price = none → pNew.price = p.price) ∧
        (∀ v, (⟨none, some 9, none, none⟩ : ProductUpdate).price = some v → pNew.price = v) ∧
        ((⟨none, some 9, none, none⟩ : ProductUpdate).description = none →
          pNew.description = p.description) ∧
        (∀ v, (⟨none, some 9, none, none⟩ : ProductUpdate).description = some v →
          pNew.description = v) ∧
        ((⟨none, some 9, none, none⟩ : ProductUpdate).stock = none → pNew.stock = p.stock) ∧
        (∀ v, (⟨none, some 9, none, none⟩ : ProductUpdate).stock = some v → pNew.stock = v) ∧
        pNew ∈ (update_product ⟨[⟨1, "a", 5, some "d", 7, 3⟩], [], [], 2, 1, 1⟩ 1
          ⟨none, some 9, none, none⟩).1.products ∧
        (∀ x ∈ (⟨[⟨1, "a", 5, some "d", 7, 3⟩], [], [], 2, 1, 1⟩ : DB).products, x.id ≠ 1 →
          x ∈ (update_product ⟨[⟨1, "a", 5, some "d", 7, 3⟩], [], [], 2, 1, 1⟩ 1
            ⟨none, some 9, none, none⟩).1.products)) ∧
    (firstProduct ⟨[⟨1, "a", 5, some "d", 7, 3⟩], [], [], 2, 1, 1⟩ 1 = none →
      update_product ⟨[⟨1, "a", 5, some "d", 7, 3⟩], [], [], 2, 1, 1⟩ 1
          ⟨none, some 9, none, none⟩ =
        (⟨[⟨1, "a", 5, some "d", 7, 3⟩], [], [], 2, 1, 1⟩,
         .error (.notFound "Product not found"))) :=
  C8_partial_update ⟨[⟨1, "a", 5, some "d", 7, 3⟩], [], [], 2, 1, 1⟩ 1
    ⟨none, some 9, none, none⟩

/-- C3: for a cart item reachable through its session's cart,
setItemQuantity with q ≤ 0 deletes the item — it is absent from the item
list on the next read — while q > 0 overwrites the quantity exactly
(no increment) and leaves the item present. -/
theorem C3_set_quantity_semantics {db : DB} {s : String} {c : Cart} {it : CartItem}
    {itemId : Nat} {q : Int} {now now2 : Nat}
    (hc : firstCart db s = some c) (hi : firstItemById db itemId c.id = some it) :
    (q ≤ 0 →
      (update_cart_item db s itemId ⟨q⟩ now).2 = .ok () ∧
      (update_cart_item db s itemId ⟨q⟩ now).1.cartItems =
        db.cartItems.filter (fun j => !(j.id == itemId)) ∧
      ∀ v, (get_cart (update_cart_item db s itemId ⟨q⟩ now).1 s now2).2 = .ok v →
        itemId ∉ v.items.map (fun w => w.id)) ∧
    (0 < q →
      (update_cart_item db s itemId ⟨q⟩ now).2 = .ok () ∧
      (∃ j ∈ (update_cart_item db s itemId ⟨q⟩ now).1.cartItems,
        j.id = itemId ∧ j.cart_id = c.id ∧ j.quantity = q) ∧
      (update_cart_item db s itemId ⟨q⟩ now).1.cartItems.map (fun j => j.id) =
        db.cartItems.map (fun j => j.id)) := by
  obtain ⟨hmem, hid, hcart⟩ := firstItemById_mem hi
  constructor
  · intro hq
    rw [update_item_delete now hc hi hq]
    rw [hid]
    refine ⟨rfl, rfl, ?_⟩
    intro v hv hin
    have hc2 : firstCart
        { db with cartItems := db.cartItems.filter (fun j => !(j.id == itemId)) } s =
        some c := hc
    rw [get_cart_found now2 hc2] at hv
    obtain ⟨_, _, hfa, _, _⟩ := renderCart_ok hv
    obtain ⟨w, hw, hwid⟩ := List.mem_map.mp hin
    obtain ⟨itm, hitm, hres⟩ := forall₂_mem_right hfa w hw
    obtain ⟨hwid2, _, _, _⟩ := resolveItem_some hres
    have hitm2 : itm ∈ db.cartItems.filter (fun j => !(j.id == itemId)) := by
      have := List.mem_filter.mp hitm
      exact this.1
    have hne : (itm.id == itemId) = false := by
      have := (List.mem_filter.mp hitm2).2
      simpa using this
    rw [hwid2] at hwid
    simp [hwid] at hne
  · intro hq
    have hq' : ¬q ≤ 0 := not_le.mpr hq
    rw [update_item_set now hc hi hq']
    refine ⟨rfl, ?_, ?_⟩
    · refine ⟨{ it with quantity := q, updated_at := now }, ?_, hid, hcart, rfl⟩
      have hf : { it with quantity := q, updated_at := now } =
          (fun j => if j.id == it.id then { j with quantity := q, updated_at := now }
            else j) it := by simp
      rw [hf]
      exact List.mem_map_of_mem _ hmem
    · rw [List.map_map]
      apply List.map_congr_left
      intro j _
      simp only [Function.comp_apply]
      by_cases hj : j.id = it.id
      · simp [hj]
      · simp [hj]

/-- C3 witness: in a store whose cart "s" has one item of quantity 2,
setItemQuantity to 0 empties the next read, and setItemQuantity to 5
overwrites the quantity to exactly 5. -/
theorem C3_witness :
    ((0 : Int) ≤ 0 →
      (update_cart_item ⟨[⟨1, "a", 5, none, 0, 0⟩], [⟨1, "s", 0, 0⟩],
          [⟨4, 1, 1, 2, 0, 0⟩], 2, 2, 5⟩ "s" 4 ⟨0⟩ 9).2 = .ok () ∧
      (update_cart_item ⟨[⟨1, "a", 5, none, 0, 0⟩], [⟨1, "s", 0, 0⟩],
          [⟨4, 1, 1, 2, 0, 0⟩], 2, 2, 5⟩ "s" 4 ⟨0⟩ 9).1.cartItems =
        (⟨[⟨1, "a", 5, none, 0, 0⟩], [⟨1, "s", 0, 0⟩],
          [⟨4, 1, 1, 2, 0, 0⟩], 2, 2, 5⟩ : DB).cartItems.filter (fun j => !(j.id == 4)) ∧
      ∀ v, (get_cart (update_cart_item ⟨[⟨1, "a", 5, none, 0, 0⟩], [⟨1, "s", 0, 0⟩],
          [⟨4, 1, 1, 2, 0, 0⟩], 2, 2, 5⟩ "s" 4 ⟨0⟩ 9).1 "s" 10).2 = .ok v →
        4 ∉ v.items.map (fun w => w.id)) ∧
    ((0 : Int) < 0 →
      (update_cart_item ⟨[⟨1, "a", 5, none, 0, 0⟩], [⟨1, "s", 0, 0⟩],
          [⟨4, 1, 1, 2, 0, 0⟩], 2, 2, 5⟩ "s" 4 ⟨0⟩ 9).2 = .ok () ∧
      (∃ j ∈ (update_cart_item ⟨[⟨1, "a", 5, none, 0, 0⟩], [⟨1, "s", 0, 0⟩],
          [⟨4, 1, 1, 2, 0, 0⟩], 2, 2, 5⟩ "s" 4 ⟨0⟩ 9).1.cartItems,
        j.id = 4 ∧ j.cart_id = 1 ∧ j.quantity = 0) ∧
      (update_cart_item ⟨[⟨1, "a", 5, none, 0, 0⟩], [⟨1, "s", 0, 0⟩],
          [⟨4, 1, 1, 2, 0, 0⟩], 2, 2, 5⟩ "s" 4 ⟨0⟩ 9).1.cartItems.map (fun j => j.id) =
        (⟨[⟨1, "a", 5, none, 0, 0⟩], [⟨1, "s", 0, 0⟩],
          [⟨4, 1, 1, 2, 0, 0⟩], 2, 2, 5⟩ : DB).cartItems.map (fun j => j.id)) :=
  @C3_set_quantity_semantics ⟨[⟨1, "a", 5, none, 0, 0⟩], [⟨1, "s", 0, 0⟩],
      [⟨4, 1, 1, 2, 0, 0⟩], 2, 2, 5⟩ "s" ⟨1, "s", 0, 0⟩ ⟨4, 1, 1, 2, 0, 0⟩ 4 0 9 10
    (by decide) (by decide)

/-- C6: setItemQuantity and removeItem fail — always with a 404 NotFound —
exactly when no cart exists for the session or the item id is not among that
session's cart's items; the store is unchanged on every failure, and on
success removeItem deletes the item unconditionally. -/
theorem C6_modify_notfound_conditions (db : DB) (s : String) (itemId : Nat)
    (u : CartItemUpdate) (now : Nat) :
    ((∃ e, (update_cart_item db s itemId u now).2 = .error e) ↔
      (firstCart db s = none ∨
       ∃ c, firstCart db s = some c ∧ firstItemById db itemId c.id = none)) ∧
    ((∃ e, (remove_from_cart db s itemId).2 = .error e) ↔
      (firstCart db s = none ∨
       ∃ c, firstCart db s = some c ∧ firstItemById db itemId c.id = none)) ∧
    (∀ e, (update_cart_item db s itemId u now).2 = .error e →
      (∃ m, e = .notFound m) ∧ (update_cart_item db s itemId u now).1 = db) ∧
    (∀ e, (remove_from_cart db s itemId).2 = .error e →
      (∃ m, e = .notFound m) ∧ (remove_from_cart db s itemId).1 = db) ∧
    ((remove_from_cart db s itemId).2 = .ok () →
      (remove_from_cart db s itemId).1.cartItems =
        db.cartItems.filter (fun j => !(j.id == itemId))) := by
  cases hc : firstCart db s with
  | none =>
      rw [update_item_noCart itemId u now hc, remove_noCart itemId hc]
      refine ⟨iff_of_true ⟨_, rfl⟩ (Or.inl rfl), iff_of_true ⟨_, rfl⟩ (Or.inl rfl),
        ?_, ?_, ?_⟩
      · intro e he
        simp only [Except.error.injEq] at he
        subst he
        exact ⟨⟨"Cart not found", rfl⟩, rfl⟩
      · intro e he
        simp only [Except.error.injEq] at he
        subst he
        exact ⟨⟨"Cart not found", rfl⟩, rfl⟩
      · intro h
        exact Except.noConfusion h
  | some c =>
      cases hi : firstItemById db itemId c.id with
      | none =>
          rw [update_item_noItem itemId u now hc hi, remove_noItem itemId hc hi]
          refine ⟨iff_of_true ⟨_, rfl⟩ (Or.inr ⟨c, rfl, hi⟩),
            iff_of_true ⟨_, rfl⟩ (Or.inr ⟨c, rfl, hi⟩), ?_, ?_, ?_⟩
          · intro e he
            simp only [Except.error.injEq] at he
            subst he
            exact ⟨⟨"Cart item not found", rfl⟩, rfl⟩
          · intro e he
            simp only [Except.error.injEq] at he
            subst he
            exact ⟨⟨"Cart item not found", rfl⟩, rfl⟩
          · intro h
            exact Except.noConfusion h
      | some it =>
          obtain ⟨hmem, hid, hcart⟩ := firstItemById_mem hi
          have hrhs : ¬((some c = (none : Option Cart)) ∨
              ∃ cc, some c = some cc ∧ firstItemById db itemId cc.id = none) := by
            rintro (h1 | ⟨cc, hcc, hii⟩)
            · exact Option.noConfusion h1
            · simp only [Option.some.injEq] at hcc
              subst hcc
              rw [hi] at hii
              exact Option.noConfusion hii
          have hupd2 : (update_cart_item db s itemId u now).2 = .ok () := by
            by_cases hq : u.quantity ≤ 0
            · rw [update_item_delete now hc hi hq]
            · rw [update_item_set now hc hi hq]
          rw [remove_item hc hi]
          refine ⟨?_, ?_, ?_, ?_, ?_⟩
          · rw [hupd2]
            exact iff_of_false (fun ⟨e, he⟩ => Except.noConfusion he) hrhs
          · exact iff_of_false (fun ⟨e, he⟩ => Except.noConfusion he) hrhs
          · intro e he
            rw [hupd2] at he
            exact Except.noConfusion he
          · intro e he
            exact Except.noConfusion he
          · intro _
            rw [hid]

/-- C6 witness: with one cart for session "s" holding item 5, both
operations at a concrete store satisfy the NotFound characterization. -/
theorem C6_witness :
    ((∃ e, (update_cart_item ⟨[], [⟨1, "s", 0, 0⟩], [⟨5, 1, 1, 2, 0, 0⟩], 1, 2, 6⟩
        "s" 5 ⟨3⟩ 7).2 = .error e) ↔
      (firstCart ⟨[], [⟨1, "s", 0, 0⟩], [⟨5, 1, 1, 2, 0, 0⟩], 1, 2, 6⟩ "s" = none ∨
       ∃ c, firstCart ⟨[], [⟨1, "s", 0, 0⟩], [⟨5, 1, 1, 2, 0, 0⟩], 1, 2, 6⟩ "s" = some c ∧
         firstItemById ⟨[], [⟨1, "s", 0, 0⟩], [⟨5, 1, 1, 2, 0, 0⟩], 1, 2, 6⟩ 5 c.id = none)) ∧
    ((∃ e, (remove_from_cart ⟨[], [⟨1, "s", 0, 0⟩], [⟨5, 1, 1, 2, 0, 0⟩], 1, 2, 6⟩
        "s" 5).2 = .error e) ↔
      (firstCart ⟨[], [⟨1, "s", 0, 0⟩], [⟨5, 1, 1, 2, 0, 0⟩], 1, 2, 6⟩ "s" = none ∨
       ∃ c, firstCart ⟨[], [⟨1, "s", 0, 0⟩], [⟨5, 1, 1, 2, 0, 0⟩], 1, 2, 6⟩ "s" = some c ∧
         firstItemById ⟨[], [⟨1, "s", 0, 0⟩], [⟨5, 1, 1, 2, 0, 0⟩], 1, 2, 6⟩ 5 c.id = none)) ∧
    (∀ e, (update_cart_item ⟨[], [⟨1, "s", 0, 0⟩], [⟨5, 1, 1, 2, 0, 0⟩], 1, 2, 6⟩
        "s" 5 ⟨3⟩ 7).2 = .error e →
      (∃ m, e = .notFound m) ∧
      (update_cart_item ⟨[], [⟨1, "s", 0, 0⟩], [⟨5, 1, 1, 2, 0, 0⟩], 1, 2, 6⟩
        "s" 5 ⟨3⟩ 7).1 = ⟨[], [⟨1, "s", 0, 0⟩], [⟨5, 1, 1, 2, 0, 0⟩], 1, 2, 6⟩) ∧
    (∀ e, (remove_from_cart ⟨[], [⟨1, "s", 0, 0⟩], [⟨5, 1, 1, 2, 0, 0⟩], 1, 2, 6⟩
        "s" 5).2 = .error e →
      (∃ m, e = .notFound m) ∧
      (remove_from_cart ⟨[], [⟨1, "s", 0, 0⟩], [⟨5, 1, 1, 2, 0, 0⟩], 1, 2, 6⟩
        "s" 5).1 = ⟨[], [⟨1, "s", 0, 0⟩], [⟨5, 1, 1, 2, 0, 0⟩], 1, 2, 6⟩) ∧
    ((remove_from_cart ⟨[], [⟨1, "s", 0, 0⟩], [⟨5, 1, 1, 2, 0, 0⟩], 1, 2, 6⟩
        "s" 5).2 = .ok () →
      (remove_from_cart ⟨[], [⟨1, "s", 0, 0⟩], [⟨5, 1, 1, 2, 0, 0⟩], 1, 2, 6⟩
        "s" 5).1.cartItems =
        (⟨[], [⟨1, "s", 0, 0⟩], [⟨5, 1, 1, 2, 0, 0⟩], 1, 2, 6⟩ : DB).cartItems.filter
          (fun j => !(j.id == 5))) :=
  C6_modify_notfound_conditions ⟨[], [⟨1, "s", 0, 0⟩], [⟨5, 1, 1, 2, 0, 0⟩], 1, 2, 6⟩
    "s" 5 ⟨3⟩ 7

theorem filter_pair_map_bump (l : List CartItem) (itId : Nat) (g : CartItem → CartItem)
    (hg : ∀ j, (g j).id = j.id ∧ (g j).cart_id = j.cart_id ∧ (g j).product_id = j.product_id)
    (cid pid : Nat) :
    (l.map (fun j => if j.id == itId then g j else j)).filter
        (fun it => it.cart_id == cid && it.product_id == pid) =
      (l.filter (fun it => it.cart_id == cid && it.product_id == pid)).map
        (fun j => if j.id == itId then g j else j) := by
  rw [List.filter_map]
  congr 1
  apply List.filter_congr
  intro j _
  simp only [Function.comp_apply]
  by_cases hj : (j.id == itId) = true
  · rw [if_pos hj]
    rcases hg j with ⟨_, h2, h3⟩
    rw [h2, h3]
  · rw [if_neg hj]

theorem distinct_filter_singleton {l : List CartItem} (hu : distinctPairs l)
    {it0 : CartItem} (hmem : it0 ∈ l) {cid pid : Nat}
    (h1 : it0.cart_id = cid) (h2 : it0.product_id = pid) :
    l.filter (fun it => it.cart_id == cid && it.product_id == pid) = [it0] := by
  refine pairwise_filter_singleton ?_ hu it0 hmem (by simp [h1, h2])
  intro a b ha hb hr
  simp only [Bool.and_eq_true, beq_iff_eq] at ha hb
  rcases hr with hne | hne
  · exact hne (ha.1.trans hb.1.symm)
  · exact hne (ha.2.trans hb.2.symm)

theorem firstItem_fresh {db : DB} (hib : ∀ it ∈ db.cartItems, it.cart_id < db.nextCartId)
    (pid : Nat) : firstItem db db.nextCartId pid = none := by
  unfold firstItem
  apply List.find?_eq_none.mpr
  intro it hit
  simp only [Bool.and_eq_true, beq_iff_eq, not_and]
  intro h1
  exact (Nat.ne_of_lt (hib it hit) h1).elim

theorem filter_pair_nil {db : DB} {cid pid : Nat} (h : firstItem db cid pid = none) :
    db.cartItems.filter (fun it => it.cart_id == cid && it.product_id == pid) = [] := by
  unfold firstItem at h
  apply List.filter_eq_nil_iff.mpr
  intro it hit
  exact List.find?_eq_none.mp h it hit

/-- C2: when the product id resolves, addItem increments the quantity of the
existing (cart, product) item by exactly the supplied amount — creating no
new row — and otherwise inserts a single new row with exactly the supplied
quantity; either way the cart afterwards holds exactly one row for the pair
whose quantity grew by the supplied amount. -/
theorem C2_add_merges {db : DB} {s : String} {d : CartItemCreate} {now : Nat}
    (hInv : Inv db) (hps : (firstProduct db d.product_id).isSome) :
    (∃ i, (add_to_cart db s d now).2 = .ok i) ∧
    (itemsFor (add_to_cart db s d now).1 (targetCartId db s) d.product_id).length = 1 ∧
    sumQty (add_to_cart db s d now).1 (targetCartId db s) d.product_id =
      sumQty db (targetCartId db s) d.product_id + d.quantity ∧
    (∀ it0, firstItem db (targetCartId db s) d.product_id = some it0 →
      (add_to_cart db s d now).2 = .ok it0.id ∧
      (add_to_cart db s d now).1.cartItems.length = db.cartItems.length ∧
      itemsFor (add_to_cart db s d now).1 (targetCartId db s) d.product_id =
        [{ it0 with quantity := it0.quantity + d.quantity, updated_at := now }]) ∧
    (firstItem db (targetCartId db s) d.product_id = none →
      (add_to_cart db s d now).2 = .ok db.nextItemId ∧
      itemsFor (add_to_cart db s d now).1 (targetCartId db s) d.product_id =
        [⟨db.nextItemId, targetCartId db s, d.product_id, d.quantity, now, now⟩]) := by
  obtain ⟨p, hp⟩ := Option.isSome_iff_exists.mp hps
  cases hc : firstCart db s with
  | some c =>
      have htgt : targetCartId db s = c.id := by unfold targetCartId; rw [hc]
      rw [htgt]
      cases hi : firstItem db c.id d.product_id with
      | some it0 =>
          rw [add_found_prod_item now hc hp hi]
          obtain ⟨hm0, hk1, hk2⟩ := firstItem_mem hi
          have hsing := distinct_filter_singleton hInv.uniq hm0 hk1 hk2
          have hitems : itemsFor
              { db with cartItems := db.cartItems.map (fun j =>
                  if j.id == it0.id then
                    { j with quantity := j.quantity + d.quantity, updated_at := now }
                  else j) } c.id d.product_id =
              [{ it0 with quantity := it0.quantity + d.quantity, updated_at := now }] := by
            unfold itemsFor
            rw [filter_pair_map_bump db.cartItems it0.id
              (fun j => { j with quantity := j.quantity + d.quantity, updated_at := now })
              (fun j => ⟨rfl, rfl, rfl⟩)]
            rw [hsing]
            simp
          refine ⟨⟨it0.id, rfl⟩, ?_, ?_, ?_, ?_⟩
          · rw [hitems]; rfl
          · unfold sumQty
            rw [hitems]
            unfold itemsFor
            rw [hsing]
            simp
          · intro it0' hi'
            simp only [Option.some.injEq] at hi'
            subst hi'
            exact ⟨rfl, List.length_map _ _, hitems⟩
          · intro hnone
            exact Option.noConfusion hnone
      | none =>
          rw [add_found_prod_noItem now hc hp hi]
          have hnil := filter_pair_nil hi
          have hitems : itemsFor
              { db with
                cartItems := db.cartItems ++
                  [⟨db.nextItemId, c.id, d.product_id, d.quantity, now, now⟩]
                nextItemId := db.nextItemId + 1 } c.id d.product_id =
              [⟨db.nextItemId, c.id, d.product_id, d.quantity, now, now⟩] := by
            unfold itemsFor
            rw [List.filter_append, hnil]
            simp
          refine ⟨⟨db.nextItemId, rfl⟩, ?_, ?_, ?_, ?_⟩
          · rw [hitems]; rfl
          · unfold sumQty
            rw [hitems]
            unfold itemsFor
            rw [hnil]
            simp
          · intro it0 hi'
            exact Option.noConfusion hi'
          · intro _
            exact ⟨rfl, hitems⟩
  | none =>
      have htgt : targetCartId db s = db.nextCartId := by unfold targetCartId; rw [hc]
      rw [htgt]
      have hi : firstItem db db.nextCartId d.product_id = none :=
        firstItem_fresh hInv.itemCartBound _
      rw [add_noCart_prod_noItem now hc hp hi]
      have hnil := filter_pair_nil hi
      have hitems : itemsFor
          { db with
            carts := db.carts ++ [⟨db.nextCartId, s, now, now⟩]
            nextCartId := db.nextCartId + 1
            cartItems := db.cartItems ++
              [⟨db.nextItemId, db.nextCartId, d.product_id, d.quantity, now, now⟩]
            nextItemId := db.nextItemId + 1 } db.nextCartId d.product_id =
          [⟨db.nextItemId, db.nextCartId, d.product_id, d.quantity, now, now⟩] := by
        unfold itemsFor
        rw [List.filter_append, hnil]
        simp
      refine ⟨⟨db.nextItemId, rfl⟩, ?_, ?_, ?_, ?_⟩
      · rw [hitems]; rfl
      · unfold sumQty
        rw [hitems]
        unfold itemsFor
        rw [hnil]
        simp
      · intro it0 hi'
        rw [hi] at hi'
        exact Option.noConfusion hi'
      · intro _
        exact ⟨rfl, hitems⟩

/-- C2 witness: in a store whose session cart already holds the product at
quantity 2, a second add of 2 succeeds, ends with exactly one row for the
pair, and its total quantity moves from 2 to 4. -/
theorem C2_witness :
    (∃ i, (add_to_cart ⟨[⟨1, "a", 5, none, 0, 0⟩], [⟨1, "s", 0, 0⟩],
        [⟨1, 1, 1, 2, 0, 0⟩], 2, 2, 2⟩ "s" ⟨1, 2⟩ 3).2 = .ok i) ∧
    (itemsFor (add_to_cart ⟨[⟨1, "a", 5, none, 0, 0⟩], [⟨1, "s", 0, 0⟩],
        [⟨1, 1, 1, 2, 0, 0⟩], 2, 2, 2⟩ "s" ⟨1, 2⟩ 3).1
      (targetCartId ⟨[⟨1, "a", 5, none, 0, 0⟩], [⟨1, "s", 0, 0⟩],
        [⟨1, 1, 1, 2, 0, 0⟩], 2, 2, 2⟩ "s") 1).length = 1 ∧
    sumQty (add_to_cart ⟨[⟨1, "a", 5, none, 0, 0⟩], [⟨1, "s", 0, 0⟩],
        [⟨1, 1, 1, 2, 0, 0⟩], 2, 2, 2⟩ "s" ⟨1, 2⟩ 3).1
      (targetCartId ⟨[⟨1, "a", 5, none, 0, 0⟩], [⟨1, "s", 0, 0⟩],
        [⟨1, 1, 1, 2, 0, 0⟩], 2, 2, 2⟩ "s") 1 =
      sumQty ⟨[⟨1, "a", 5, none, 0, 0⟩], [⟨1, "s", 0, 0⟩],
        [⟨1, 1, 1, 2, 0, 0⟩], 2, 2, 2⟩
        (targetCartId ⟨[⟨1, "a", 5, none, 0, 0⟩], [⟨1, "s", 0, 0⟩],
          [⟨1, 1, 1, 2, 0, 0⟩], 2, 2, 2⟩ "s") 1 + 2 ∧
    (∀ it0, firstItem ⟨[⟨1, "a", 5, none, 0, 0⟩], [⟨1, "s", 0, 0⟩],
        [⟨1, 1, 1, 2, 0, 0⟩], 2, 2, 2⟩
        (targetCartId ⟨[⟨1, "a", 5, none, 0, 0⟩], [⟨1, "s", 0, 0⟩],
          [⟨1, 1, 1, 2, 0, 0⟩], 2, 2, 2⟩ "s") 1 = some it0 →
      (add_to_cart ⟨[⟨1, "a", 5, none, 0, 0⟩], [⟨1, "s", 0, 0⟩],
        [⟨1, 1, 1, 2, 0, 0⟩], 2, 2, 2⟩ "s" ⟨1, 2⟩ 3).2 = .ok it0.id ∧
      (add_to_cart ⟨[⟨1, "a", 5, none, 0, 0⟩], [⟨1, "s", 0, 0⟩],
        [⟨1, 1, 1, 2, 0, 0⟩], 2, 2, 2⟩ "s" ⟨1, 2⟩ 3).1.cartItems.length =
        (⟨[⟨1, "a", 5, none, 0, 0⟩], [⟨1, "s", 0, 0⟩],
          [⟨1, 1, 1, 2, 0, 0⟩], 2, 2, 2⟩ : DB).cartItems.length ∧
      itemsFor (add_to_cart ⟨[⟨1, "a", 5, none, 0, 0⟩], [⟨1, "s", 0, 0⟩],
          [⟨1, 1, 1, 2, 0, 0⟩], 2, 2, 2⟩ "s" ⟨1, 2⟩ 3).1
        (targetCartId ⟨[⟨1, "a", 5, none, 0, 0⟩], [⟨1, "s", 0, 0⟩],
          [⟨1, 1, 1, 2, 0, 0⟩], 2, 2, 2⟩ "s") 1 =
        [{ it0 with quantity := it0.quantity + 2, updated_at := 3 }]) ∧
    (firstItem ⟨[⟨1, "a", 5, none, 0, 0⟩], [⟨1, "s", 0, 0⟩],
        [⟨1, 1, 1, 2, 0, 0⟩], 2, 2, 2⟩
        (targetCartId ⟨[⟨1, "a", 5, none, 0, 0⟩], [⟨1, "s", 0, 0⟩],
          [⟨1, 1, 1, 2, 0, 0⟩], 2, 2, 2⟩ "s") 1 = none →
      (add_to_cart ⟨[⟨1, "a", 5, none, 0, 0⟩], [⟨1, "s", 0, 0⟩],
        [⟨1, 1, 1, 2, 0, 0⟩], 2, 2, 2⟩ "s" ⟨1, 2⟩ 3).2 = .ok 2 ∧
      itemsFor (add_to_cart ⟨[⟨1, "a", 5, none, 0, 0⟩], [⟨1, "s", 0, 0⟩],
          [⟨1, 1, 1, 2, 0, 0⟩], 2, 2, 2⟩ "s" ⟨1, 2⟩ 3).1
        (targetCartId ⟨[⟨1, "a", 5, none, 0, 0⟩], [⟨1, "s", 0, 0⟩],
          [⟨1, 1, 1, 2, 0, 0⟩], 2, 2, 2⟩ "s") 1 =
        [⟨2, targetCartId ⟨[⟨1, "a", 5, none, 0, 0⟩], [⟨1, "s", 0, 0⟩],
            [⟨1, 1, 1, 2, 0, 0⟩], 2, 2, 2⟩ "s", 1, 2, 3, 3⟩]) :=
  C2_add_merges (Inv.mk (by decide) (by decide) (by decide)) (by decide)

/-- C10: addItem performs no sign check: with a resolving product and a
nonpositive quantity, a missing (cart, product) row is created with exactly
that nonpositive quantity, and an existing row is incremented in place —
kept, not deleted — even when the result is ≤ 0. -/
theorem C10_add_no_sign_check {db : DB} {s : String} {d : CartItemCreate}
    {now : Nat}
    (hps : (firstProduct db d.product_id).isSome) (_hq : d.quantity ≤ 0) :
    (∃ i, (add_to_cart db s d now).2 = .ok i) ∧
    (firstItem db (targetCartId db s) d.product_id = none →
      (⟨db.nextItemId, targetCartId db s, d.product_id, d.quantity, now, now⟩ : CartItem) ∈
        (add_to_cart db s d now).1.cartItems) ∧
    (∀ it0, firstItem db (targetCartId db s) d.product_id = some it0 →
      { it0 with quantity := it0.quantity + d.quantity, updated_at := now } ∈
        (add_to_cart db s d now).1.cartItems) := by
  obtain ⟨p, hp⟩ := Option.isSome_iff_exists.mp hps
  cases hc : firstCart db s with
  | some c =>
      have htgt : targetCartId db s = c.id := by unfold targetCartId; rw [hc]
      rw [htgt]
      cases hi : firstItem db c.id d.product_id with
      | some it0 =>
          rw [add_found_prod_item now hc hp hi]
          obtain ⟨hm0, _, _⟩ := firstItem_mem hi
          refine ⟨⟨it0.id, rfl⟩, ?_, ?_⟩
          · intro hnone
            exact Option.noConfusion hnone
          · intro it0' hi'
            simp only [Option.some.injEq] at hi'
            subst hi'
            have hf : { it0 with quantity := it0.quantity + d.quantity, updated_at := now } =
                (fun j => if j.id == it0.id then
                  { j with quantity := j.quantity + d.quantity, updated_at := now }
                  else j) it0 := by simp
            rw [hf]
            exact List.mem_map_of_mem _ hm0
      | none =>
          rw [add_found_prod_noItem now hc hp hi]
          refine ⟨⟨db.nextItemId, rfl⟩, ?_, ?_⟩
          · intro _
            simp
          · intro it0 hi'
            exact Option.noConfusion hi'
  | none =>
      have htgt : targetCartId db s = db.nextCartId := by unfold targetCartId; rw [hc]
      rw [htgt]
      cases hi : firstItem db db.nextCartId d.product_id with
      | some it0 =>
          rw [add_noCart_prod_item now hc hp hi]
          obtain ⟨hm0, _, _⟩ := firstItem_mem hi
          refine ⟨⟨it0.id, rfl⟩, ?_, ?_⟩
          · intro hnone
            exact Option.noConfusion hnone
          · intro it0' hi'
            simp only [Option.some.injEq] at hi'
            subst hi'
            have hf : { it0 with quantity := it0.quantity + d.quantity, updated_at := now } =
                (fun j => if j.id == it0.id then
                  { j with quantity := j.quantity + d.quantity, updated_at := now }
                  else j) it0 := by simp
            rw [hf]
            exact List.mem_map_of_mem _ hm0
      | none =>
          rw [add_noCart_prod_noItem now hc hp hi]
          refine ⟨⟨db.nextItemId, rfl⟩, ?_, ?_⟩
          · intro _
            simp
          · intro it0 hi'
            exact Option.noConfusion hi'

/-- C10 witness: adding quantity −2 to a cart already holding the product at
quantity 2 keeps the row, now at quantity 0, instead of deleting it. -/
theorem C10_witness :
    (∃ i, (add_to_cart ⟨[⟨1, "a", 5, none, 0, 0⟩], [⟨1, "s", 0, 0⟩],
        [⟨1, 1, 1, 2, 0, 0⟩], 2, 2, 2⟩ "s" ⟨1, -2⟩ 3).2 = .ok i) ∧
    (firstItem ⟨[⟨1, "a", 5, none, 0, 0⟩], [⟨1, "s", 0, 0⟩],
        [⟨1, 1, 1, 2, 0, 0⟩], 2, 2, 2⟩
        (targetCartId ⟨[⟨1, "a", 5, none, 0, 0⟩], [⟨1, "s", 0, 0⟩],
          [⟨1, 1, 1, 2, 0, 0⟩], 2, 2, 2⟩ "s") 1 = none →
      (⟨2, targetCartId ⟨[⟨1, "a", 5, none, 0, 0⟩], [⟨1, "s", 0, 0⟩],
          [⟨1, 1, 1, 2, 0, 0⟩], 2, 2, 2⟩ "s", 1, -2, 3, 3⟩ : CartItem) ∈
        (add_to_cart ⟨[⟨1, "a", 5, none, 0, 0⟩], [⟨1, "s", 0, 0⟩],
          [⟨1, 1, 1, 2, 0, 0⟩], 2, 2, 2⟩ "s" ⟨1, -2⟩ 3).1.cartItems) ∧
    (∀ it0, firstItem ⟨[⟨1, "a", 5, none, 0, 0⟩], [⟨1, "s", 0, 0⟩],
        [⟨1, 1, 1, 2, 0, 0⟩], 2, 2, 2⟩
        (targetCartId ⟨[⟨1, "a", 5, none, 0, 0⟩], [⟨1, "s", 0, 0⟩],
          [⟨1, 1, 1, 2, 0, 0⟩], 2, 2, 2⟩ "s") 1 = some it0 →
      { it0 with quantity := it0.quantity + -2, updated_at := 3 } ∈
        (add_to_cart ⟨[⟨1, "a", 5, none, 0, 0⟩], [⟨1, "s", 0, 0⟩],
          [⟨1, 1, 1, 2, 0, 0⟩], 2, 2, 2⟩ "s" ⟨1, -2⟩ 3).1.cartItems) :=
  C10_add_no_sign_check (by decide) (by decide)

theorem get_cart_create_reload {db : DB} {s : String} (now : Nat)
    (hc : firstCart db s = none) {c2 : Cart}
    (hf : firstCartById { db with
        carts := db.carts ++ [⟨db.nextCartId, s, now, now⟩]
        nextCartId := db.nextCartId + 1 } db.nextCartId = some c2) :
    get_cart db s now =
      ({ db with
         carts := db.carts ++ [⟨db.nextCartId, s, now, now⟩]
         nextCartId := db.nextCartId + 1 },
       renderCart { db with
         carts := db.carts ++ [⟨db.nextCartId, s, now, now⟩]
         nextCartId := db.nextCartId + 1 } c2) := by
  unfold get_cart
  simp only [hc, hf]

theorem get_cart_create_reload_none {db : DB} {s : String} (now : Nat)
    (hc : firstCart db s = none)
    (hf : firstCartById { db with
        carts := db.carts ++ [⟨db.nextCartId, s, now, now⟩]
        nextCartId := db.nextCartId + 1 } db.nextCartId = none) :
    get_cart db s now =
      ({ db with
         carts := db.carts ++ [⟨db.nextCartId, s, now, now⟩]
         nextCartId := db.nextCartId + 1 },
       .error .crash) := by
  unfold get_cart
  simp only [hc, hf]

/-- Everything a successful `get_cart` read guarantees about the returned
view: totals recomputed from the returned items, every item's product
resolved from the post-call store, and the items in bijection (id, product
id, quantity preserved) with the stored item rows of the returned cart. -/
theorem get_cart_ok_props {db db2 : DB} {s : String} {now : Nat} {v : CartView}
    (h : get_cart db s now = (db2, .ok v)) :
    v.total_items = (v.items.map (fun w => w.quantity)).sum ∧
    v.total_price = (v.items.map (fun w => (w.quantity : ℚ) * w.product.price)).sum ∧
    (∀ w ∈ v.items, ∃ p, firstProduct db2 w.product_id = some p ∧ w.product = p.toDTO) ∧
    List.Forall₂ (fun (it : CartItem) w => w.id = it.id ∧ w.product_id = it.product_id ∧
      w.quantity = it.quantity) (cartItemsOf db2 v.id) v.items := by
  have hmain : ∃ c, renderCart db2 c = .ok v ∧ v.id = c.id := by
    cases hc : firstCart db s with
    | some c =>
        rw [get_cart_found now hc] at h
        injection h with h1 h2
        subst h1
        exact ⟨c, h2, (renderCart_ok h2).1⟩
    | none =>
        cases hf : firstCartById { db with
            carts := db.carts ++ [⟨db.nextCartId, s, now, now⟩]
            nextCartId := db.nextCartId + 1 } db.nextCartId with
        | some c2 =>
            rw [get_cart_create_reload now hc hf] at h
            injection h with h1 h2
            subst h1
            exact ⟨c2, h2, (renderCart_ok h2).1⟩
        | none =>
            rw [get_cart_create_reload_none now hc hf] at h
            injection h with h1 h2
            exact absurd h2 (fun hh => Except.noConfusion hh)
  obtain ⟨c, hrc, hvid⟩ := hmain
  obtain ⟨hid, _, hfa, hti, htp⟩ := renderCart_ok hrc
  refine ⟨hti, htp, ?_, ?_⟩
  · intro w hw
    obtain ⟨it, _, hres⟩ := forall₂_mem_right hfa w hw
    obtain ⟨_, hwpid, _, p, hp, hwp⟩ := resolveItem_some hres
    exact ⟨p, by rw [hwpid]; exact hp, hwp⟩
  · rw [hvid]
    refine List.Forall₂.imp ?_ hfa
    intro it w hres
    obtain ⟨h1, h2, h3, _⟩ := resolveItem_some hres
    exact ⟨h1, h2, h3⟩

/-- C1: a successful getOrCreateCart read reports total_items as the sum of
the item quantities and total_price as the sum of quantity times the
product price currently stored at read time, the items mirroring the stored
rows; updating a product mutates no cart or item row, and concretely a
price change from 5 to 7 moves an existing two-unit cart's total from 10 to
14 on the next read with carts and items untouched. -/
theorem C1_totals_recomputed {db db2 : DB} {s : String} {now : Nat} {v : CartView}
    (h : get_cart db s now = (db2, .ok v)) :
    v.total_items = (v.items.map (fun w => w.quantity)).sum ∧
    v.total_price = (v.items.map (fun w => (w.quantity : ℚ) * w.product.price)).sum ∧
    (∀ w ∈ v.items, ∃ p, firstProduct db2 w.product_id = some p ∧ w.product = p.toDTO) ∧
    List.Forall₂ (fun (it : CartItem) w => w.id = it.id ∧ w.product_id = it.product_id ∧
      w.quantity = it.quantity) (cartItemsOf db2 v.id) v.items ∧
    (∀ pid u, (update_product db2 pid u).1.carts = db2.carts ∧
      (update_product db2 pid u).1.cartItems = db2.cartItems) ∧
    (totalPriceOf (get_cart ⟨[⟨1, "a", 5, none, 0, 0⟩], [⟨1, "t", 0, 0⟩],
        [⟨1, 1, 1, 2, 0, 0⟩], 2, 2, 2⟩ "t" 1) = some 10 ∧
     (update_product ⟨[⟨1, "a", 5, none, 0, 0⟩], [⟨1, "t", 0, 0⟩],
        [⟨1, 1, 1, 2, 0, 0⟩], 2, 2, 2⟩ 1 ⟨none, some 7, none, none⟩).1.carts =
       (⟨[⟨1, "a", 5, none, 0, 0⟩], [⟨1, "t", 0, 0⟩],
        [⟨1, 1, 1, 2, 0, 0⟩], 2, 2, 2⟩ : DB).carts ∧
     (update_product ⟨[⟨1, "a", 5, none, 0, 0⟩], [⟨1, "t", 0, 0⟩],
        [⟨1, 1, 1, 2, 0, 0⟩], 2, 2, 2⟩ 1 ⟨none, some 7, none, none⟩).1.cartItems =
       (⟨[⟨1, "a", 5, none, 0, 0⟩], [⟨1, "t", 0, 0⟩],
        [⟨1, 1, 1, 2, 0, 0⟩], 2, 2, 2⟩ : DB).cartItems ∧
     totalPriceOf (get_cart (update_product ⟨[⟨1, "a", 5, none, 0, 0⟩], [⟨1, "t", 0, 0⟩],
        [⟨1, 1, 1, 2, 0, 0⟩], 2, 2, 2⟩ 1 ⟨none, some 7, none, none⟩).1 "t" 2) =
       some 14) := by
  obtain ⟨h1, h2, h3, h4⟩ := get_cart_ok_props h
  refine ⟨h1, h2, h3, h4, fun pid u => update_product_frame db2 pid u, ?_, rfl, rfl, ?_⟩
  · simp [get_cart, firstCart, renderCart, cartItemsOf, resolveItem, firstProduct,
      totalPriceOf, Product.toDTO, List.mapM.loop]
    norm_num
  · simp [get_cart, firstCart, renderCart, cartItemsOf, resolveItem, firstProduct,
      totalPriceOf, Product.toDTO, List.mapM.loop, update_product, applyUpdate]
    norm_num

/-- C1 witness: the single-product, single-item store read at session "t"
satisfies every clause, with the explicit view of id 1, one item of
quantity 2 and total price 10. -/
theorem C1_witness :
    (⟨1, "t", [⟨1, 1, 2, ⟨1, "a", 5, none, 0⟩⟩], 2, 10⟩ : CartView).total_items =
      (((⟨1, "t", [⟨1, 1, 2, ⟨1, "a", 5, none, 0⟩⟩], 2, 10⟩ : CartView).items).map
        (fun w => w.quantity)).sum ∧
    (⟨1, "t", [⟨1, 1, 2, ⟨1, "a", 5, none, 0⟩⟩], 2, 10⟩ : CartView).total_price =
      (((⟨1, "t", [⟨1, 1, 2, ⟨1, "a", 5, none, 0⟩⟩], 2, 10⟩ : CartView).items).map
        (fun w => (w.quantity : ℚ) * w.product.price)).sum ∧
    (∀ w ∈ (⟨1, "t", [⟨1, 1, 2, ⟨1, "a", 5, none, 0⟩⟩], 2, 10⟩ : CartView).items,
      ∃ p, firstProduct ⟨[⟨1, "a", 5, none, 0, 0⟩], [⟨1, "t", 0, 0⟩],
          [⟨1, 1, 1, 2, 0, 0⟩], 2, 2, 2⟩ w.product_id = some p ∧ w.product = p.toDTO) ∧
    List.Forall₂ (fun (it : CartItem) w => w.id = it.id ∧ w.product_id = it.product_id ∧
      w.quantity = it.quantity)
      (cartItemsOf ⟨[⟨1, "a", 5, none, 0, 0⟩], [⟨1, "t", 0, 0⟩],
          [⟨1, 1, 1, 2, 0, 0⟩], 2, 2, 2⟩
        (⟨1, "t", [⟨1, 1, 2, ⟨1, "a", 5, none, 0⟩⟩], 2, 10⟩ : CartView).id)
      (⟨1, "t", [⟨1, 1, 2, ⟨1, "a", 5, none, 0⟩⟩], 2, 10⟩ : CartView).items ∧
    (∀ pid u, (update_product ⟨[⟨1, "a", 5, none, 0, 0⟩], [⟨1, "t", 0, 0⟩],
        [⟨1, 1, 1, 2, 0, 0⟩], 2, 2, 2⟩ pid u).1.carts =
      (⟨[⟨1, "a", 5, none, 0, 0⟩], [⟨1, "t", 0, 0⟩],
        [⟨1, 1, 1, 2, 0, 0⟩], 2, 2, 2⟩ : DB).carts ∧
      (update_product ⟨[⟨1, "a", 5, none, 0, 0⟩], [⟨1, "t", 0, 0⟩],
        [⟨1, 1, 1, 2, 0, 0⟩], 2, 2, 2⟩ pid u).1.cartItems =
      (⟨[⟨1, "a", 5, none, 0, 0⟩], [⟨1, "t", 0, 0⟩],
        [⟨1, 1, 1, 2, 0, 0⟩], 2, 2, 2⟩ : DB).cartItems) ∧
    (totalPriceOf (get_cart ⟨[⟨1, "a", 5, none, 0, 0⟩], [⟨1, "t", 0, 0⟩],
        [⟨1, 1, 1, 2, 0, 0⟩], 2, 2, 2⟩ "t" 1) = some 10 ∧
     (update_product ⟨[⟨1, "a", 5, none, 0, 0⟩], [⟨1, "t", 0, 0⟩],
        [⟨1, 1, 1, 2, 0, 0⟩], 2, 2, 2⟩ 1 ⟨none, some 7, none, none⟩).1.carts =
       (⟨[⟨1, "a", 5, none, 0, 0⟩], [⟨1, "t", 0, 0⟩],
        [⟨1, 1, 1, 2, 0, 0⟩], 2, 2, 2⟩ : DB).carts ∧
     (update_product ⟨[⟨1, "a", 5, none, 0, 0⟩], [⟨1, "t", 0, 0⟩],
        [⟨1, 1, 1, 2, 0, 0⟩], 2, 2, 2⟩ 1 ⟨none, some 7, none, none⟩).1.cartItems =
       (⟨[⟨1, "a", 5, none, 0, 0⟩], [⟨1, "t", 0, 0⟩],
        [⟨1, 1, 1, 2, 0, 0⟩], 2, 2, 2⟩ : DB).cartItems ∧
     totalPriceOf (get_cart (update_product ⟨[⟨1, "a", 5, none, 0, 0⟩], [⟨1, "t", 0, 0⟩],
        [⟨1, 1, 1, 2, 0, 0⟩], 2, 2, 2⟩ 1 ⟨none, some 7, none, none⟩).1 "t" 2) =
       some 14) :=
  @C1_totals_recomputed
    ⟨[⟨1, "a", 5, none, 0, 0⟩], [⟨1, "t", 0, 0⟩], [⟨1, 1, 1, 2, 0, 0⟩], 2, 2, 2⟩
    ⟨[⟨1, "a", 5, none, 0, 0⟩], [⟨1, "t", 0, 0⟩], [⟨1, 1, 1, 2, 0, 0⟩], 2, 2, 2⟩
    "t" 1 ⟨1, "t", [⟨1, 1, 2, ⟨1, "a", 5, none, 0⟩⟩], 2, 10⟩
    (by
      simp [get_cart, firstCart, renderCart, cartItemsOf, resolveItem, firstProduct,
        Product.toDTO, List.mapM.loop]
      norm_num)

/-- C7 counterexample: getOrCreateCart is not failure-free as the claim
states: reading session "s", whose existing cart holds an item whose
product id 1 resolves to no stored product (the product was deleted), ends
in an uncaught error (HTTP 500) rather than a cart payload. -/
theorem C7_counterexample :
    (get_cart ⟨[], [⟨1, "s", 0, 0⟩], [⟨1, 1, 1, 2, 0, 0⟩], 1, 2, 2⟩ "s" 0).2 =
      .error .crash := rfl

/-- C7 (amended): provided every item of the session's selected cart still
references a stored product, getOrCreateCart never fails: with no cart for
the key it creates one with a fresh id and returns it — and a subsequent
lookup finds that cart — and with one or more carts for the key it returns
the first match in the store's retrieval order, leaving the store untouched
(duplicates are neither merged nor deleted); a second creation for the same
key is tolerated, not rejected. -/
theorem C7_get_or_create_amended {db : DB} {s : String} {now : Nat}
    (hcb : ∀ c ∈ db.carts, c.id < db.nextCartId)
    (hib : ∀ it ∈ db.cartItems, it.cart_id < db.nextCartId)
    (hres : ∀ c ∈ (firstCart db s).toList, ∀ it ∈ cartItemsOf db c.id,
      (firstProduct db it.product_id).isSome) :
    (∃ v, (get_cart db s now).2 = .ok v) ∧
    (firstCart db s = none →
      (get_cart db s now).1.carts = db.carts ++ [⟨db.nextCartId, s, now, now⟩] ∧
      (get_cart db s now).2 = .ok ⟨db.nextCartId, s, [], 0, 0⟩ ∧
      firstCart (get_cart db s now).1 s = some ⟨db.nextCartId, s, now, now⟩) ∧
    (∀ c, firstCart db s = some c →
      (get_cart db s now).1 = db ∧
      ∀ v, (get_cart db s now).2 = .ok v → v.id = c.id ∧ v.session_id = c.session_id) := by
  cases hc : firstCart db s with
  | some c =>
      rw [get_cart_found now hc]
      have hcl : c ∈ (firstCart db s).toList := by rw [hc]; simp
      obtain ⟨v, hv⟩ := renderCart_total db c (hres c hcl)
      refine ⟨⟨v, hv⟩, ?_, ?_⟩
      · intro hnone
        exact Option.noConfusion hnone
      · intro c' hc'
        simp only [Option.some.injEq] at hc'
        subst hc'
        refine ⟨rfl, ?_⟩
        intro w hw
        obtain ⟨h1, h2, _, _, _⟩ := renderCart_ok hw
        exact ⟨h1, h2⟩
  | none =>
      rw [get_cart_create now hc hcb]
      have hnil : cartItemsOf { db with
          carts := db.carts ++ [⟨db.nextCartId, s, now, now⟩]
          nextCartId := db.nextCartId + 1 } db.nextCartId = [] := by
        apply cartItemsOf_none
        intro it hit
        exact Nat.ne_of_lt (hib it hit)
      have hrc := @renderCart_nil
        { db with
          carts := db.carts ++ [⟨db.nextCartId, s, now, now⟩]
          nextCartId := db.nextCartId + 1 }
        ⟨db.nextCartId, s, now, now⟩ hnil
      refine ⟨⟨_, hrc⟩, ?_, ?_⟩
      · intro _
        exact ⟨rfl, hrc, firstCart_append_self hc now⟩
      · intro c hc'
        exact Option.noConfusion hc'

/-- C7 witness for the amended claim: at a store whose cart for "s" holds a
resolving product, the read succeeds, leaves the store untouched and
returns the first matching cart. -/
theorem C7_witness :
    (∃ v, (get_cart ⟨[⟨1, "a", 5, none, 0, 0⟩], [⟨1, "s", 0, 0⟩],
        [⟨1, 1, 1, 2, 0, 0⟩], 2, 2, 2⟩ "s" 9).2 = .ok v) ∧
    (firstCart ⟨[⟨1, "a", 5, none, 0, 0⟩], [⟨1, "s", 0, 0⟩],
        [⟨1, 1, 1, 2, 0, 0⟩], 2, 2, 2⟩ "s" = none →
      (get_cart ⟨[⟨1, "a", 5, none, 0, 0⟩], [⟨1, "s", 0, 0⟩],
        [⟨1, 1, 1, 2, 0, 0⟩], 2, 2, 2⟩ "s" 9).1.carts =
        (⟨[⟨1, "a", 5, none, 0, 0⟩], [⟨1, "s", 0, 0⟩],
          [⟨1, 1, 1, 2, 0, 0⟩], 2, 2, 2⟩ : DB).carts ++ [⟨2, "s", 9, 9⟩] ∧
      (get_cart ⟨[⟨1, "a", 5, none, 0, 0⟩], [⟨1, "s", 0, 0⟩],
        [⟨1, 1, 1, 2, 0, 0⟩], 2, 2, 2⟩ "s" 9).2 = .ok ⟨2, "s", [], 0, 0⟩ ∧
      firstCart (get_cart ⟨[⟨1, "a", 5, none, 0, 0⟩], [⟨1, "s", 0, 0⟩],
        [⟨1, 1, 1, 2, 0, 0⟩], 2, 2, 2⟩ "s" 9).1 "s" = some ⟨2, "s", 9, 9⟩) ∧
    (∀ c, firstCart ⟨[⟨1, "a", 5, none, 0, 0⟩], [⟨1, "s", 0, 0⟩],
        [⟨1, 1, 1, 2, 0, 0⟩], 2, 2, 2⟩ "s" = some c →
      (get_cart ⟨[⟨1, "a", 5, none, 0, 0⟩], [⟨1, "s", 0, 0⟩],
        [⟨1, 1, 1, 2, 0, 0⟩], 2, 2, 2⟩ "s" 9).1 =
        ⟨[⟨1, "a", 5, none, 0, 0⟩], [⟨1, "s", 0, 0⟩],
          [⟨1, 1, 1, 2, 0, 0⟩], 2, 2, 2⟩ ∧
      ∀ v, (get_cart ⟨[⟨1, "a", 5, none, 0, 0⟩], [⟨1, "s", 0, 0⟩],
        [⟨1, 1, 1, 2, 0, 0⟩], 2, 2, 2⟩ "s" 9).2 = .ok v →
        v.id = c.id ∧ v.session_id = c.session_id) :=
  C7_get_or_create_amended (by decide) (by decide) (by decide)

end FastapiCart
